import Mathlib

/-!
Formal model of the EG-STAT engine-statistics core (curve generation,
match solver, design solver, vehicle/drivetrain layer) as a shallow
embedding in Lean 4.  Python floats are modelled as rationals; the
float constant `math.pi` is modelled by the rational value of the
IEEE-754 double nearest to pi.  Python exceptions are modelled with
`Except String`.  Definitions mirror the Python sources
(`egstat/curves.py`, `egstat/validate.py`, `egstat/models.py`,
`egstat/performance.py`, `egstat/vehicle.py`, `egstat/shifts.py`,
`egstat/solver.py`) function by function.
-/

/-- Rational value of the IEEE-754 double `math.pi`. -/
def mathPi : ℚ := 3.141592653589793

/-- Python helper used throughout `curves.py`: clamp `x` into `[lo, hi]`. -/
def pyClamp (x lo hi : ℚ) : ℚ :=
  if x < lo then lo else if x > hi then hi else x

/-- Python `int(...)` on a float: truncation toward zero. -/
def pyInt (q : ℚ) : Int :=
  if 0 ≤ q then ⌊q⌋ else -⌊-q⌋

/-- Python `round(...)` on a float: round half to even, returning an int. -/
def pyRound (q : ℚ) : Int :=
  let f : Int := ⌊q⌋
  let r : ℚ := q - (f : ℚ)
  if r < 1/2 then f
  else if 1/2 < r then f + 1
  else if f % 2 = 0 then f else f + 1

/-- Python `max` over a nonempty float list (`0` stands in for the empty case,
which the call sites guard). -/
def pyMax (l : List ℚ) : ℚ :=
  match l with
  | [] => 0
  | x :: xs => xs.foldl max x

/-- Python `min` over a nonempty float list (`0` stands in for the empty case,
which the call sites guard). -/
def pyMin (l : List ℚ) : ℚ :=
  match l with
  | [] => 0
  | x :: xs => xs.foldl min x

/-- Python `str.strip()` on a character list. -/
def stripWS (cs : List Char) : List Char :=
  ((cs.dropWhile Char.isWhitespace).reverse.dropWhile Char.isWhitespace).reverse

/-- Python `s.lower().strip()` (equivalently `s.strip().lower()`),
yielding the character list of the result. -/
def lowerStrip (s : String) : List Char :=
  stripWS (s.data.map Char.toLower)

/-- Python `cs.startswith("2")` on a stripped/lowered character list. -/
def startsWithTwo (cs : List Char) : Bool :=
  match cs with
  | [] => false
  | c :: _ => c = '2'

/-- Dictionary read with default: Python `d.get(k, v)` on a string-keyed dict
modelled as an association list. -/
def alistGetD (l : List (String × ℚ)) (k : String) (d : ℚ) : ℚ :=
  (l.lookup k).getD d

/-- Dictionary write: Python `d[k] = v`.  Updates the binding in place when the
key exists, appends it otherwise (insertion-ordered dict semantics). -/
def alistSet (l : List (String × ℚ)) (k : String) (v : ℚ) : List (String × ℚ) :=
  match l with
  | [] => [(k, v)]
  | (k0, v0) :: rest =>
      if k0 = k then (k0, v) :: rest else (k0, v0) :: alistSet rest k v

/-! ## `egstat/curves.py` -/

/-- `CurveTemplate` from `curves.py`: a named list of (x, y) control points. -/
structure CurveTemplate where
  name : String
  points : List (ℚ × ℚ)

/-- The `TEMPLATES` table from `curves.py`, with its exact control points. -/
def TEMPLATES : List (String × CurveTemplate) :=
  [ ("torque_biased",
      { name := "torque_biased"
        points := [(0, 0.35), (0.15, 0.65), (0.35, 0.95), (0.45, 1),
                   (0.60, 0.92), (0.75, 0.78), (0.90, 0.62), (1, 0.50)] }),
    ("balanced",
      { name := "balanced"
        points := [(0, 0.30), (0.15, 0.62), (0.35, 0.90), (0.55, 1),
                   (0.70, 0.95), (0.85, 0.82), (1, 0.70)] }),
    ("top_end",
      { name := "top_end"
        points := [(0, 0.20), (0.20, 0.55), (0.40, 0.80), (0.60, 0.95),
                   (0.72, 1), (0.85, 0.98), (1, 0.92)] }) ]

/-- Stable insertion into a list sorted by first component (helper for the
`sorted(points, key=...)` call in `piecewise_linear`). -/
def insertByFst (p : ℚ × ℚ) : List (ℚ × ℚ) → List (ℚ × ℚ)
  | [] => [p]
  | q :: rest => if p.1 ≤ q.1 then p :: q :: rest else q :: insertByFst p rest

/-- Python `sorted(points, key=lambda p: p[0])` (stable sort). -/
def sortByFst : List (ℚ × ℚ) → List (ℚ × ℚ)
  | [] => []
  | p :: rest => insertByFst p (sortByFst rest)

/-- Scan of consecutive control-point pairs in `piecewise_linear`: first
segment with `x0 <= x <= x1` yields the interpolated value. -/
def plSegs (x : ℚ) : (ℚ × ℚ) → List (ℚ × ℚ) → ℚ
  | (_, y0), [] => y0
  | (x0, y0), (x1, y1) :: rest =>
      if x0 ≤ x ∧ x ≤ x1 then
        if x1 = x0 then y0 else y0 + (x - x0) / (x1 - x0) * (y1 - y0)
      else plSegs x (x1, y1) rest

/-- `piecewise_linear` from `curves.py`: clamp `x` into `[0,1]`, sort the
points, then boundary checks and segment scan.  (For the empty point list the
Python code would fail on indexing; the templates are all nonempty.) -/
def piecewise_linear (points : List (ℚ × ℚ)) (x : ℚ) : ℚ :=
  let x := pyClamp x 0 1
  match sortByFst points with
  | [] => 0
  | p :: rest =>
      if x ≤ p.1 then p.2
      else if x ≥ ((p :: rest).getLastD (0, 0)).1 then
        ((p :: rest).getLastD (0, 0)).2
      else plSegs x p rest

/-- `normalized_profile` from `curves.py`: template lookup (unknown name
raises), interpolation, final clamp into `[0,1]`. -/
def normalized_profile (profile : String) (x : ℚ) : Except String ℚ :=
  match TEMPLATES.lookup profile with
  | none => .error ("Unknown profile " ++ profile)
  | some t => .ok (pyClamp (piecewise_linear t.points x) 0 1)

/-- `rpm_fraction` from `curves.py`. -/
def rpm_fraction (rpm rpmMin rpmMax : ℚ) : Except String ℚ :=
  if rpmMax ≤ rpmMin then .error "rpm_max must be > rpm_min"
  else .ok (pyClamp ((rpm - rpmMin) / (rpmMax - rpmMin)) 0 1)

/-! ## `egstat/validate.py` -/

/-- `ValidationIssue` from `validate.py`. -/
structure ValidationIssue where
  level : String
  fieldName : String
  message : String
deriving DecidableEq

/-- `ValidationIssue.__str__`. -/
def issueStr (i : ValidationIssue) : String :=
  "[" ++ i.level ++ "] " ++ i.fieldName ++ ": " ++ i.message

/-- `_is_pos` from `validate.py`. -/
def isPosOpt (x : Option ℚ) : Bool :=
  match x with
  | none => false
  | some v => v > 0

/-- `validate_engine_inputs` from `validate.py`. -/
def validate_engine_inputs (cylinders : Option Int) (bore_m stroke_m displacement_m3 : Option ℚ)
    (idle_rpm redline_rpm : Option Int) : List ValidationIssue :=
  (match cylinders with
   | none => [⟨"ERROR", "cylinders", "Missing cylinder count."⟩]
   | some c => if c ≤ 0 then [⟨"ERROR", "cylinders", "Must be > 0."⟩] else []) ++
  (match bore_m with
   | some b => if b ≤ 0 then [⟨"ERROR", "bore_m", "Must be > 0."⟩] else []
   | none => []) ++
  (match stroke_m with
   | some s => if s ≤ 0 then [⟨"ERROR", "stroke_m", "Must be > 0."⟩] else []
   | none => []) ++
  (match displacement_m3 with
   | some d => if d ≤ 0 then [⟨"ERROR", "displacement_m3", "Must be > 0."⟩] else []
   | none => []) ++
  (match idle_rpm with
   | some i => if i ≤ 0 then [⟨"ERROR", "idle_rpm", "Must be > 0."⟩] else []
   | none => []) ++
  (match redline_rpm with
   | some r => if r ≤ 0 then [⟨"ERROR", "redline_rpm", "Must be > 0."⟩] else []
   | none => []) ++
  (if isPosOpt (idle_rpm.map (fun i => (i : ℚ))) ∧ isPosOpt (redline_rpm.map (fun r => (r : ℚ))) then
    (if redline_rpm.getD 0 ≤ idle_rpm.getD 0 then
      [⟨"ERROR", "redline_rpm", "Must be greater than idle_rpm."⟩]
     else if redline_rpm.getD 0 < idle_rpm.getD 0 + 500 then
      [⟨"WARN", "redline_rpm", "Very low gap between idle and redline."⟩]
     else [])
   else []) ++
  (if displacement_m3 = none ∧ (bore_m = none ∨ stroke_m = none) then
    [⟨"WARN", "displacement",
      "Provide displacement_m3 or (bore_m + stroke_m) for full calculations."⟩]
   else [])

/-- `has_errors` from `validate.py`. -/
def has_errors (issues : List ValidationIssue) : Bool :=
  issues.any (fun i => i.level = "ERROR")

/-! ## `egstat/models.py` -/

/-- `EngineSpec` dataclass. -/
structure EngineSpec where
  cylinders : Int
  cycle : String := "4-stroke"
  bore_m : Option ℚ := none
  stroke_m : Option ℚ := none
  displacement_m3 : Option ℚ := none
  idle_rpm : Int := 800
  redline_rpm : Int := 6500
deriving DecidableEq

/-- `VehicleSpec` dataclass. -/
structure VehicleSpec where
  mass_kg : Option ℚ := none
  cd : Option ℚ := none
  frontal_area_m2 : Option ℚ := none
  crr : Option ℚ := none
  air_density_kg_m3 : Option ℚ := none
deriving DecidableEq

/-- `DrivetrainSpec` dataclass. -/
structure DrivetrainSpec where
  gears : Option (List ℚ) := none
  final_drive : Option ℚ := none
  tire_radius_m : Option ℚ := none
  drivetrain_efficiency : Option ℚ := none
deriving DecidableEq

/-- `Assumptions` dataclass. -/
structure Assumptions where
  ve_profile : String := "balanced"
  friction_class : String := "oem"
  fuel : String := "petrol"
  bsfc_g_per_kwh : Option ℚ := none
deriving DecidableEq

/-- `RunConfig` dataclass. -/
structure RunConfig where
  rpm_min : Int := 1000
  rpm_max : Int := 7000
  rpm_step : Int := 100
deriving DecidableEq

/-- `Result` dataclass: string-keyed scalars, string-keyed curves, issues. -/
structure Result where
  scalars : List (String × ℚ) := []
  curves : List (String × List ℚ) := []
  issues : List String := []
deriving DecidableEq

/-! ## `egstat/performance.py` -/

/-- `rpm_to_rad_s`. -/
def rpm_to_rad_s (rpm : ℚ) : ℚ :=
  (2 * mathPi * rpm) / 60

/-- `displacement_m3_from_bore_stroke`. -/
def displacement_m3_from_bore_stroke (bore_m stroke_m : ℚ) (cylinders : Int) :
    Except String ℚ :=
  if bore_m ≤ 0 ∨ stroke_m ≤ 0 then .error "bore_m and stroke_m must be > 0"
  else if cylinders ≤ 0 then .error "cylinders must be > 0"
  else .ok ((mathPi / 4) * bore_m ^ 2 * stroke_m * (cylinders : ℚ))

/-- `mean_piston_speed_mps`. -/
def mean_piston_speed_mps (stroke_m rpm : ℚ) : Except String ℚ :=
  if stroke_m ≤ 0 then .error "stroke_m must be > 0"
  else if rpm < 0 then .error "rpm must be >= 0"
  else .ok (2 * stroke_m * (rpm / 60))

/-- `torque_nm_from_bmep_pa`. -/
def torque_nm_from_bmep_pa (bmep_pa displacement_m3 : ℚ) (revs_per_power : Int) :
    Except String ℚ :=
  if bmep_pa < 0 then .error "bmep_pa must be >= 0"
  else if displacement_m3 ≤ 0 then .error "displacement_m3 must be > 0"
  else if ¬(revs_per_power = 1 ∨ revs_per_power = 2) then
    .error "revs_per_power must be 1 (2-stroke) or 2 (4-stroke)"
  else .ok ((bmep_pa * displacement_m3) / (2 * mathPi * (revs_per_power : ℚ)))

/-- `bmep_pa_from_torque_nm`. -/
def bmep_pa_from_torque_nm (torque_nm displacement_m3 : ℚ) (revs_per_power : Int) :
    Except String ℚ :=
  if torque_nm < 0 then .error "torque_nm must be >= 0"
  else if displacement_m3 ≤ 0 then .error "displacement_m3 must be > 0"
  else if ¬(revs_per_power = 1 ∨ revs_per_power = 2) then
    .error "revs_per_power must be 1 (2-stroke) or 2 (4-stroke)"
  else .ok ((torque_nm * (2 * mathPi * (revs_per_power : ℚ))) / displacement_m3)

/-- `power_w_from_torque_rpm`. -/
def power_w_from_torque_rpm (torque_nm rpm : ℚ) : Except String ℚ :=
  if rpm < 0 then .error "rpm must be >= 0"
  else if torque_nm < 0 then .error "torque_nm must be >= 0"
  else .ok (torque_nm * rpm_to_rad_s rpm)

/-- `power_kw_from_torque_rpm`. -/
def power_kw_from_torque_rpm (torque_nm rpm : ℚ) : Except String ℚ :=
  (power_w_from_torque_rpm torque_nm rpm).map (fun p => p / 1000)

/-- `torque_nm_from_power_w_rpm`. -/
def torque_nm_from_power_w_rpm (power_w rpm : ℚ) : Except String ℚ :=
  if power_w < 0 then .error "power_w must be >= 0"
  else if rpm ≤ 0 then .error "rpm must be > 0"
  else .ok (power_w / rpm_to_rad_s rpm)

/-- Python `range(a, stop, s)` (exclusive stop).  A zero step raises in
Python; the call sites here guard the step or use the default positive step,
so the zero case is modelled as empty. -/
def pyRange (a stop s : Int) : List Int :=
  if 0 < s then
    (List.range (if stop ≤ a then 0 else ((stop - 1 - a).toNat / s.toNat) + 1)).map
      (fun i => a + s * (i : Int))
  else if s < 0 then
    (List.range (if a ≤ stop then 0 else ((a - stop - 1).toNat / (-s).toNat) + 1)).map
      (fun i => a + s * (i : Int))
  else []

/-- `rpm_grid`: `range(rpm_min, rpm_max + 1, rpm_step)` with validation. -/
def rpm_grid (cfg : RunConfig) : Except String (List Int) :=
  if cfg.rpm_step ≤ 0 then .error "rpm_step must be > 0"
  else if cfg.rpm_max ≤ cfg.rpm_min then .error "rpm_max must be > rpm_min"
  else .ok (pyRange cfg.rpm_min (cfg.rpm_max + 1) cfg.rpm_step)

/-- `_revs_per_power_from_cycle`: 1 when the stripped lowercase cycle string
starts with "2", else 2. -/
def revs_per_power_from_cycle (cycle : String) : Int :=
  if startsWithTwo (lowerStrip cycle) then 1 else 2

/-- `bsfc_default_g_per_kwh`. -/
def bsfc_default_g_per_kwh (fuel : String) : ℚ :=
  let f := lowerStrip fuel
  if f = "diesel".data then 230
  else if f = "e85".data then 320
  else 270

/-- `fuel_density_kg_per_l`. -/
def fuel_density_kg_per_l (fuel : String) : ℚ :=
  let f := lowerStrip fuel
  if f = "diesel".data then 0.832
  else if f = "e85".data then 0.785
  else 0.745

/-- `fuel_flow_lph_from_power_kw`. -/
def fuel_flow_lph_from_power_kw (power_kw bsfc_g_per_kwh : ℚ) (fuel : String) :
    Except String ℚ :=
  if power_kw < 0 then .error "power_kw must be >= 0"
  else if bsfc_g_per_kwh ≤ 0 then .error "bsfc_g_per_kwh must be > 0"
  else .ok ((bsfc_g_per_kwh * power_kw / 1000) / fuel_density_kg_per_l fuel)

/-- Warning block of `add_stage5_outputs` for high peak BMEP. -/
def bmepWarnStep (r : Result) : Result :=
  let pb := alistGetD r.scalars "peak_bmep_kpa" 0
  if pb > 1600 then
    { r with issues := r.issues ++
        ["[WARN] bmep: Very high BMEP (>1600 kPa). Likely boosted / highly tuned."] }
  else if pb > 1200 then
    { r with issues := r.issues ++
        ["[WARN] bmep: High BMEP (>1200 kPa). NA engines may not sustain this."] }
  else r

/-- `add_stage5_outputs`: fuel estimates, piston-speed credibility scalar and
warnings, BMEP warnings. -/
def add_stage5_outputs (result : Result) (engine : EngineSpec) (assumptions : Assumptions) :
    Except String Result :=
  let bsfc := assumptions.bsfc_g_per_kwh.getD (bsfc_default_g_per_kwh assumptions.fuel)
  let scalars1 := alistSet result.scalars "bsfc_g_per_kwh" bsfc
  let peak_power_kw := alistGetD scalars1 "peak_power_kw" 0
  match fuel_flow_lph_from_power_kw peak_power_kw bsfc assumptions.fuel with
  | .error m => .error m
  | .ok wot_lph =>
    let scalars2 := alistSet scalars1 "fuel_wot_lph_at_peak_power" wot_lph
    match fuel_flow_lph_from_power_kw 20 bsfc assumptions.fuel with
    | .error m => .error m
    | .ok cruise_lph =>
      let scalars3 := alistSet scalars2 "fuel_cruise_lph_at_20kw" cruise_lph
      match engine.stroke_m with
      | some s =>
        match mean_piston_speed_mps s (engine.redline_rpm : ℚ) with
        | .error m => .error m
        | .ok ps =>
          let scalars4 := alistSet scalars3 "piston_speed_mps_at_redline" ps
          let issues1 := result.issues ++
            (if ps > 25 then
              ["[WARN] piston_speed: Very high (>25 m/s). Expect durability risk."]
             else if ps > 20 then
              ["[WARN] piston_speed: High (>20 m/s). Racing-ish territory."]
             else [])
          .ok (bmepWarnStep { scalars := scalars4, curves := result.curves, issues := issues1 })
      | none =>
        .ok (bmepWarnStep { scalars := scalars3, curves := result.curves,
                            issues := result.issues })

/-- One iteration of the per-RPM loop in `analyze_basic_curves`: returns the
`(bmep_kpa, torque_nm, power_kw)` triple for one grid point. -/
def curve_point (profile_name : String) (idle_rpm redline_rpm : Int)
    (peak_bmep_pa disp_m3 : ℚ) (revs_per_power : Int) (rpm : Int) :
    Except String (ℚ × ℚ × ℚ) :=
  match rpm_fraction (rpm : ℚ) (idle_rpm : ℚ) (redline_rpm : ℚ) with
  | .error m => .error m
  | .ok x =>
    match normalized_profile profile_name x with
    | .error m => .error m
    | .ok factor =>
      let bmep_pa := peak_bmep_pa * factor
      match torque_nm_from_bmep_pa bmep_pa disp_m3 revs_per_power with
      | .error m => .error m
      | .ok torque_nm =>
        match power_kw_from_torque_rpm torque_nm (rpm : ℚ) with
        | .error m => .error m
        | .ok power_kw => .ok (bmep_pa / 1000, torque_nm, power_kw)

/-- The per-RPM loop of `analyze_basic_curves`: sample every grid point,
propagating the first raised exception. -/
def curvePoints (f : Int → Except String (ℚ × ℚ × ℚ)) : List Int →
    Except String (List (ℚ × ℚ × ℚ))
  | [] => .ok []
  | r :: rest =>
    match f r with
    | .error m => .error m
    | .ok p =>
      match curvePoints f rest with
      | .error m => .error m
      | .ok ps => .ok (p :: ps)

/-- Issue list computed at the top of `analyze_basic_curves`. -/
def validateIssues (engine : EngineSpec) : List ValidationIssue :=
  validate_engine_inputs (some engine.cylinders) engine.bore_m engine.stroke_m
    engine.displacement_m3 (some engine.idle_rpm) (some engine.redline_rpm)

/-- WARN-level issue strings attached to a successful Result. -/
def warnStrings (engine : EngineSpec) : List String :=
  ((validateIssues engine).filter (fun i => i.level = "WARN")).map issueStr

/-- Tail of `analyze_basic_curves` once displacement is resolved: grid, per-RPM
sampling, peak extraction, result assembly, stage-5 augmentation. -/
def analyze_rest (engine : EngineSpec) (assumptions : Assumptions) (cfg : RunConfig)
    (peak_bmep_kpa : ℚ) (profile : Option String) (warnIssues : List String)
    (disp_m3 : ℚ) : Except String Result :=
  let profile_name := profile.getD assumptions.ve_profile
  let revs_per_power := revs_per_power_from_cycle engine.cycle
  match rpm_grid cfg with
  | .error m => .error m
  | .ok rpms =>
    match curvePoints
        (curve_point profile_name engine.idle_rpm engine.redline_rpm
          (peak_bmep_kpa * 1000) disp_m3 revs_per_power) rpms with
    | .error m => .error m
    | .ok pts =>
      let bmep_kpa_curve := pts.map (fun p => p.1)
      let torque_curve := pts.map (fun p => p.2.1)
      let power_kw_curve := pts.map (fun p => p.2.2)
      let peak_torque_nm := if torque_curve = [] then 0 else pyMax torque_curve
      let peak_torque_rpm : ℚ :=
        if torque_curve = [] then 0
        else ((rpms.getD (torque_curve.findIdx (fun t => t = peak_torque_nm)) 0 : Int) : ℚ)
      let peak_power_kw := if power_kw_curve = [] then 0 else pyMax power_kw_curve
      let peak_power_rpm : ℚ :=
        if power_kw_curve = [] then 0
        else ((rpms.getD (power_kw_curve.findIdx (fun p => p = peak_power_kw)) 0 : Int) : ℚ)
      let result : Result :=
        { scalars :=
            [("displacement_l", disp_m3 * 1000),
             ("peak_bmep_kpa", peak_bmep_kpa),
             ("peak_torque_nm", peak_torque_nm),
             ("peak_torque_rpm", peak_torque_rpm),
             ("peak_power_kw", peak_power_kw),
             ("peak_power_rpm", peak_power_rpm)]
          curves :=
            [("rpm", rpms.map (fun r : Int => (r : ℚ))),
             ("bmep_kpa", bmep_kpa_curve),
             ("torque_nm", torque_curve),
             ("power_kw", power_kw_curve)]
          issues := warnIssues }
      add_stage5_outputs result engine assumptions

/-- `analyze_basic_curves`: validation (ERROR issues abort with an empty
Result), displacement resolution (missing geometry aborts with an appended
ERROR issue), then `analyze_rest`.  Exceptions raised by the helpers it calls
(`rpm_grid`, `normalized_profile`, the physics formulas, stage 5) propagate
as `Except.error`, exactly as the Python function lets them escape. -/
def analyze_basic_curves (engine : EngineSpec) (assumptions : Assumptions)
    (cfg : RunConfig) (peak_bmep_kpa : ℚ) (profile : Option String) :
    Except String Result :=
  let issues := validateIssues engine
  if has_errors issues then
    .ok { scalars := [], curves := [], issues := issues.map issueStr }
  else
    match engine.displacement_m3 with
    | some d => analyze_rest engine assumptions cfg peak_bmep_kpa profile
        (warnStrings engine) d
    | none =>
      match engine.bore_m, engine.stroke_m with
      | some b, some s =>
        match displacement_m3_from_bore_stroke b s engine.cylinders with
        | .error m => .error m
        | .ok d => analyze_rest engine assumptions cfg peak_bmep_kpa profile
            (warnStrings engine) d
      | _, _ =>
        .ok { scalars := [], curves := [],
              issues := issues.map issueStr ++
                ["[ERROR] displacement: Cannot compute displacement (need bore_m+stroke_m or displacement_m3)."] }

/-! ## `egstat/vehicle.py` -/

/-- Standard gravity constant `G` from `vehicle.py`. -/
def gravityG : ℚ := 9.80665

/-- `speed_mps_from_rpm`. -/
def speed_mps_from_rpm (rpm gear_ratio final_drive tire_radius_m : ℚ) :
    Except String ℚ :=
  if rpm < 0 then .error "rpm must be >= 0"
  else if gear_ratio ≤ 0 ∨ final_drive ≤ 0 ∨ tire_radius_m ≤ 0 then
    .error "gear_ratio, final_drive, tire_radius_m must be > 0"
  else .ok ((rpm / (gear_ratio * final_drive)) * (2 * mathPi * tire_radius_m) / 60)

/-- `speed_kph_from_rpm`. -/
def speed_kph_from_rpm (rpm gear_ratio final_drive tire_radius_m : ℚ) :
    Except String ℚ :=
  (speed_mps_from_rpm rpm gear_ratio final_drive tire_radius_m).map (fun v => v * 3.6)

/-- `road_load_power_w`. -/
def road_load_power_w (v_mps mass_kg cd frontal_area_m2 crr air_density_kg_m3 : ℚ) :
    Except String ℚ :=
  if v_mps < 0 then .error "v_mps must be >= 0"
  else if mass_kg ≤ 0 ∨ cd ≤ 0 ∨ frontal_area_m2 ≤ 0 then
    .error "mass_kg, cd, frontal_area_m2 must be > 0"
  else if crr ≤ 0 ∨ air_density_kg_m3 ≤ 0 then
    .error "crr, air_density_kg_m3 must be > 0"
  else .ok (0.5 * air_density_kg_m3 * (cd * frontal_area_m2) * v_mps ^ 3 +
            crr * mass_kg * gravityG * v_mps)

/-- Running best of the top-speed search: best speed (kph), gear, rpm. -/
structure TsState where
  best_kph : ℚ
  best_gear : Int
  best_rpm : ℚ
deriving DecidableEq

/-- One `(rpm, power)` step of the `estimate_top_speed` search loop. -/
def ts_step (mass cd fa crr rho eff final_drive tire rpm_cap : ℚ) (gi : Int)
    (gr : ℚ) (st : TsState) (pr : ℚ × ℚ) : Except String TsState :=
  if pr.1 > rpm_cap then .ok st
  else
    match speed_mps_from_rpm pr.1 gr final_drive tire with
    | .error m => .error m
    | .ok v_mps =>
      let p_avail_w := pr.2 * 1000 * eff
      match road_load_power_w v_mps mass cd fa crr rho with
      | .error m => .error m
      | .ok p_req_w =>
        if p_avail_w ≥ p_req_w then
          let v_kph := v_mps * 3.6
          if v_kph > st.best_kph then .ok ⟨v_kph, gi, pr.1⟩ else .ok st
        else .ok st

/-- Inner loop of `estimate_top_speed` over the `(rpm, power)` samples of one
gear. -/
def ts_gear (mass cd fa crr rho eff final_drive tire rpm_cap : ℚ) (gi : Int)
    (gr : ℚ) : TsState → List (ℚ × ℚ) → Except String TsState
  | st, [] => .ok st
  | st, pr :: rest =>
    match ts_step mass cd fa crr rho eff final_drive tire rpm_cap gi gr st pr with
    | .error m => .error m
    | .ok st1 => ts_gear mass cd fa crr rho eff final_drive tire rpm_cap gi gr st1 rest

/-- Outer loop of `estimate_top_speed` over gears (1-indexed). -/
def ts_gears (mass cd fa crr rho eff final_drive tire rpm_cap : ℚ)
    (pairs : List (ℚ × ℚ)) (gi : Int) (gears : List ℚ) (st : TsState) :
    Except String TsState :=
  match gears with
  | [] => .ok st
  | g :: rest =>
    match ts_gear mass cd fa crr rho eff final_drive tire rpm_cap gi g st pairs with
    | .error m => .error m
    | .ok st1 => ts_gears mass cd fa crr rho eff final_drive tire rpm_cap pairs (gi + 1) rest st1

/-- `estimate_top_speed` from `vehicle.py`: required-field checks, effective
defaults (eff 0.90, rho 1.225, crr 0.012), feasibility search over
gears and RPM samples, output dict. -/
def estimate_top_speed (result : Result) (engine : EngineSpec)
    (vehicle : VehicleSpec) (drivetrain : DrivetrainSpec) :
    Except String (List (String × ℚ)) :=
  match drivetrain.gears, drivetrain.final_drive, drivetrain.tire_radius_m with
  | some gs, some final_drive, some tire =>
    match vehicle.mass_kg, vehicle.cd, vehicle.frontal_area_m2 with
    | some mass, some cd, some fa =>
      match result.curves.lookup "rpm", result.curves.lookup "power_kw" with
      | some rpms, some power_kw =>
        let rpm_cap : ℚ :=
          min (engine.redline_rpm : ℚ)
            (if rpms = [] then (engine.redline_rpm : ℚ) else pyMax rpms)
        let eff := drivetrain.drivetrain_efficiency.getD 0.90
        let rho := vehicle.air_density_kg_m3.getD 1.225
        let crr := vehicle.crr.getD 0.012
        match ts_gears mass cd fa crr rho eff final_drive tire rpm_cap
            (rpms.zip power_kw) 1 gs ⟨0, 0, 0⟩ with
        | .error m => .error m
        | .ok st =>
          .ok [("top_speed_kph", st.best_kph),
               ("top_speed_gear", (st.best_gear : ℚ)),
               ("top_speed_rpm", st.best_rpm),
               ("drivetrain_eff", eff),
               ("rho", rho),
               ("crr", crr)]
      | _, _ => .error "Result must contain curves: rpm, power_kw"
    | _, _, _ => .error "vehicle.mass_kg, cd, frontal_area_m2 required"
  | _, _, _ => .error "drivetrain.gears, final_drive, tire_radius_m required"

/-! ## `egstat/shifts.py` -/

/-- Segment scan of `interp_1d` over consecutive `(x, y)` pairs. -/
def interpSegs (x : ℚ) : List ((ℚ × ℚ) × (ℚ × ℚ)) → Option ℚ
  | [] => none
  | ((x0, y0), (x1, y1)) :: rest =>
      if x0 ≤ x ∧ x ≤ x1 then
        some (if x1 = x0 then y0 else y0 + (x - x0) / (x1 - x0) * (y1 - y0))
      else interpSegs x rest

/-- Value computed by `interp_1d` once its length check has passed. -/
def interpVal (xs ys : List ℚ) (x : ℚ) : ℚ :=
  if x ≤ xs.headD 0 then ys.headD 0
  else if x ≥ xs.getLastD 0 then ys.getLastD 0
  else
    match interpSegs x ((xs.zip ys).zip (xs.tail.zip ys.tail)) with
    | some y => y
    | none => ys.getLastD 0

/-- `interp_1d` from `shifts.py`. -/
def interp_1d (xs ys : List ℚ) (x : ℚ) : Except String ℚ :=
  if xs = [] ∨ xs.length ≠ ys.length then
    .error "xs and ys must be same non-zero length"
  else .ok (interpVal xs ys x)

/-- Search loop of `recommend_upshifts`: earliest in-window rpm at which
next-gear wheel torque meets or exceeds current-gear wheel torque. -/
def findShift (rpmsAll tq : List ℚ) (rpm_min rpm_max : Int) (g1 g2 ratio_drop : ℚ) :
    List ℚ → Except String (Option (ℚ × ℚ))
  | [] => .ok none
  | r :: rest =>
    if r < (rpm_min : ℚ) ∨ r > (rpm_max : ℚ) then
      findShift rpmsAll tq rpm_min rpm_max g1 g2 ratio_drop rest
    else
      let r_after := r * ratio_drop
      if r_after < (rpm_min : ℚ) ∨ r_after > (rpm_max : ℚ) then
        findShift rpmsAll tq rpm_min rpm_max g1 g2 ratio_drop rest
      else
        match interp_1d rpmsAll tq r with
        | .error m => .error m
        | .ok t1 =>
          match interp_1d rpmsAll tq r_after with
          | .error m => .error m
          | .ok t2 =>
            if t2 * g2 ≥ t1 * g1 then .ok (some (r, r_after))
            else findShift rpmsAll tq rpm_min rpm_max g1 g2 ratio_drop rest

/-- One row of the `recommend_upshifts` output for the gear pair `(g1, g2)`
at boundary index `i` (0-based). -/
def upshiftRow (rpms tq : List ℚ) (rpm_min rpm_max : Int) (final_drive : ℚ)
    (tire : Option ℚ) (i : Nat) (g1 g2 : ℚ) :
    Except String (List (String × ℚ)) :=
  let ratio_drop := g2 / g1
  match findShift rpms tq rpm_min rpm_max g1 g2 ratio_drop rpms with
  | .error m => .error m
  | .ok chosen =>
    let rr : ℚ × ℚ :=
      match chosen with
      | none => (((rpm_max : Int) : ℚ), ((rpm_max : Int) : ℚ) * ratio_drop)
      | some c => c
    let base : List (String × ℚ) :=
      [("from_gear", ((i : Int) : ℚ) + 1), ("to_gear", ((i : Int) : ℚ) + 2),
       ("upshift_rpm", rr.1), ("post_shift_rpm", rr.2)]
    match tire with
    | none => .ok base
    | some rt =>
      match speed_kph_from_rpm rr.1 g1 final_drive rt with
      | .error m => .error m
      | .ok v => .ok (base ++ [("speed_kph_at_shift", v)])

/-- Loop of `recommend_upshifts` over adjacent gear pairs. -/
def upshiftRows (rpms tq : List ℚ) (rpm_min rpm_max : Int) (final_drive : ℚ)
    (tire : Option ℚ) (i : Nat) : List (ℚ × ℚ) →
    Except String (List (List (String × ℚ)))
  | [] => .ok []
  | (g1, g2) :: rest =>
    match upshiftRow rpms tq rpm_min rpm_max final_drive tire i g1 g2 with
    | .error m => .error m
    | .ok row =>
      match upshiftRows rpms tq rpm_min rpm_max final_drive tire (i + 1) rest with
      | .error m => .error m
      | .ok rows => .ok (row :: rows)

/-- `recommend_upshifts` from `shifts.py`.  (Python computes `min(rpms)` /
`max(rpms)`, which raises on an empty curve; the empty case is surfaced as an
error here.) -/
def recommend_upshifts (result : Result) (engine : EngineSpec)
    (drivetrain : DrivetrainSpec) : Except String (List (List (String × ℚ))) :=
  match drivetrain.gears, drivetrain.final_drive with
  | some gears, some final_drive =>
    match result.curves.lookup "rpm", result.curves.lookup "torque_nm" with
    | some rpms, some tq =>
      if rpms = [] then .error "min() arg is an empty sequence"
      else
        let rpm_min := max engine.idle_rpm (pyInt (pyMin rpms))
        let rpm_max := min engine.redline_rpm (pyInt (pyMax rpms))
        upshiftRows rpms tq rpm_min rpm_max final_drive drivetrain.tire_radius_m 0
          (gears.zip gears.tail)
    | _, _ => .error "Result must contain curves: rpm, torque_nm"
  | _, _ => .error "drivetrain.gears and final_drive required"

/-! ## `egstat/solver.py` -/

/-- `MatchResult` dataclass. -/
structure MatchResult where
  engine : EngineSpec
  peak_bmep_kpa : ℚ
  confidence : ℚ
  assumptions_made : List String
deriving DecidableEq

/-- `_clamp01`. -/
def clamp01 (x : ℚ) : ℚ :=
  if x < 0 then 0 else if x > 1 then 1 else x

/-- `_cycle_denominator`: `2*pi` when the lowercased, stripped cycle string
contains the character "2" anywhere, else `4*pi`. -/
def cycle_denominator (cycle : String) : ℚ :=
  if (lowerStrip cycle).contains '2' then 2 * mathPi else 4 * mathPi

/-- Python list prefix test (helper for substring containment). -/
def startsWithList (needle hay : List Char) : Bool :=
  match needle, hay with
  | [], _ => true
  | _ :: _, [] => false
  | a :: as, b :: bs => a = b && startsWithList as bs

/-- Python substring containment `needle in hay` on character lists. -/
def containsSub (hay needle : List Char) : Bool :=
  match hay with
  | [] => needle.isEmpty
  | _ :: rest => startsWithList needle hay || containsSub rest needle

/-- `_infer_ratio_from_profile`. -/
def infer_ratio_from_profile (profile : String) : ℚ :=
  let p := lowerStrip profile
  if containsSub p "top".data then 1.10
  else if containsSub p "torque".data then 0.90
  else 1.00

/-- `_infer_peak_power_rpm`. -/
def infer_peak_power_rpm (profile : String) (redline : Int) : Int :=
  let p := lowerStrip profile
  if containsSub p "top".data then pyRound (0.95 * (redline : ℚ))
  else if containsSub p "torque".data then pyRound (0.80 * (redline : ℚ))
  else pyRound (0.88 * (redline : ℚ))

/-- `_infer_peak_torque_rpm`. -/
def infer_peak_torque_rpm (profile : String) (redline : Int) : Int :=
  let p := lowerStrip profile
  if containsSub p "top".data then pyRound (0.70 * (redline : ℚ))
  else if containsSub p "torque".data then pyRound (0.55 * (redline : ℚ))
  else pyRound (0.60 * (redline : ℚ))

/-- `_infer_cylinders_from_disp_l`. -/
def infer_cylinders_from_disp_l (disp_l : ℚ) : Int :=
  if disp_l < 1.1 then 3
  else if disp_l < 2.6 then 4
  else if disp_l < 3.6 then 6
  else if disp_l < 5.5 then 8
  else 12

/-- `_torque_nm_from_power_kw` (solver-local helper, no validation). -/
def torque_nm_from_power_kw (power_kw : ℚ) (rpm : Int) : ℚ :=
  (power_kw * 1000) / (2 * mathPi * ((rpm : ℚ) / 60))

/-- `_bmep_kpa_from_torque_nm` (solver-local helper, no validation). -/
def bmep_kpa_from_torque_nm (torque_nm disp_m3 : ℚ) (cycle : String) : ℚ :=
  (torque_nm * cycle_denominator cycle / disp_m3) / 1000

/-- Newton iteration used to model the float cube root in
`_infer_bore_stroke_from_disp` (`x ** (1/3)` on a positive float). -/
def cubeRootNewton (q : ℚ) : Nat → ℚ
  | 0 => max q 1
  | n + 1 =>
    let x := cubeRootNewton q n
    if x = 0 then 0 else (2 * x + q / x ^ 2) / 3

/-- Rational model of the float cube root `x ** (1.0/3.0)`. -/
def cubeRootQ (q : ℚ) : ℚ := cubeRootNewton q 12

/-- `_infer_bore_stroke_from_disp`. -/
def infer_bore_stroke_from_disp (disp_m3 : ℚ) (cyl : Int) (bore_to_stroke : ℚ) :
    ℚ × ℚ :=
  let v_cyl := disp_m3 / (cyl : ℚ)
  let r := bore_to_stroke
  let stroke_m := cubeRootQ (4 * v_cyl / (mathPi * r ^ 2))
  (r * stroke_m, stroke_m)

/-- Local working state of the geometry-filling block of `match_engine`. -/
structure GeoState where
  cyl : Int
  bore_m : Option ℚ
  stroke_m : Option ℚ
  disp_m3 : Option ℚ
  conf : ℚ
  made : List String
deriving DecidableEq

/-- Geometry block of `match_engine` (the four "fill missing engine geometry"
rules, applied in source order). -/
def match_geometry (profile : String) (st : GeoState) : GeoState :=
  let st1 :=
    match st.disp_m3 with
    | some d =>
      if st.cyl = 0 then
        let c := infer_cylinders_from_disp_l (d * 1000)
        { st with cyl := c, conf := st.conf - 0.15,
                  made := st.made ++ ["Assumed cylinders from displacement bucket"] }
      else st
    | none => st
  let st2 :=
    match st1.disp_m3, st1.bore_m, st1.stroke_m with
    | none, some b, some s =>
      if st1.cyl ≠ 0 then
        { st1 with disp_m3 := some ((mathPi / 4) * b ^ 2 * s * (st1.cyl : ℚ)) }
      else st1
    | _, _, _ => st1
  let st3 :=
    match st2.disp_m3 with
    | some d =>
      if st2.bore_m = none ∨ st2.stroke_m = none then
        let st2a :=
          if st2.cyl = 0 then
            { st2 with cyl := 4, conf := st2.conf - 0.20,
                       made := st2.made ++ ["Assumed cylinders=4 (no cylinder count provided)"] }
          else st2
        let r := infer_ratio_from_profile profile
        let bs := infer_bore_stroke_from_disp d st2a.cyl r
        { st2a with bore_m := some bs.1, stroke_m := some bs.2,
                    conf := st2a.conf - 0.20,
                    made := st2a.made ++ ["Assumed bore/stroke ratio from profile"] }
      else st2
    | none => st2
  if st3.disp_m3 = none ∧ (st3.bore_m = none ∨ st3.stroke_m = none) then
    { st3 with conf := st3.conf - 0.40,
               made := st3.made ++
                 ["Missing geometry: provide --disp-cc OR (--cyl + --bore-mm + --stroke-mm)"] }
  else st3

/-- BMEP inference block of `match_engine`: explicit value, else torque
target, else power target (with peak-power-rpm inference), else the 1000 kPa
default.  Returns the inferred BMEP with updated confidence and notes. -/
def infer_bmep (disp_m3 : Option ℚ) (cycle profile : String) (redline : Int)
    (target_power_kw : Option ℚ) (target_power_rpm : Option Int)
    (target_torque_nm : Option ℚ) (peak_bmep_kpa : Option ℚ)
    (conf : ℚ) (made : List String) : ℚ × ℚ × List String :=
  match peak_bmep_kpa with
  | some v => (v, conf, made)
  | none =>
    match target_torque_nm, disp_m3 with
    | some t, some d => (bmep_kpa_from_torque_nm t d cycle, conf, made)
    | _, _ =>
      match target_power_kw, disp_m3 with
      | some p, some d =>
        let rpConf : Int × ℚ × List String :=
          match target_power_rpm with
          | some rp => (rp, conf, made)
          | none =>
            (infer_peak_power_rpm profile redline, conf - 0.10,
             made ++ ["Assumed peak power rpm from profile"])
        let tq := torque_nm_from_power_kw p rpConf.1
        (bmep_kpa_from_torque_nm tq d cycle, rpConf.2.1, rpConf.2.2)
      | _, _ =>
        (1000, conf - 0.35,
         made ++ ["No target power/torque provided; defaulted peak_bmep_kpa=1000"])

/-- Local cycle string of `match_engine`: `engine.cycle or "4-stroke"`. -/
def cycle_local (engine : EngineSpec) : String :=
  if engine.cycle = "" then "4-stroke" else engine.cycle

/-- Local profile string of `match_engine`: `assumptions.ve_profile or
"balanced"`. -/
def profile_local (assumptions : Assumptions) : String :=
  if assumptions.ve_profile = "" then "balanced" else assumptions.ve_profile

/-- Initial geometry state of `match_engine`: the field values copied out of
the caller's `EngineSpec`, confidence 1.0, no notes. -/
def geo_init (engine : EngineSpec) : GeoState :=
  ⟨engine.cylinders, engine.bore_m, engine.stroke_m, engine.displacement_m3, 1, []⟩

/-- `match_engine` from `solver.py`. -/
def match_engine (engine : EngineSpec) (assumptions : Assumptions)
    (target_power_kw : Option ℚ) (target_power_rpm : Option Int)
    (target_torque_nm : Option ℚ) (target_torque_rpm : Option Int)
    (peak_bmep_kpa : Option ℚ) : MatchResult :=
  let cycle := cycle_local engine
  let idle := if engine.idle_rpm = 0 then 800 else engine.idle_rpm
  let redline := if engine.redline_rpm = 0 then 7000 else engine.redline_rpm
  let profile := profile_local assumptions
  let g := match_geometry profile (geo_init engine)
  let bmepConf := infer_bmep g.disp_m3 cycle profile redline
    target_power_kw target_power_rpm target_torque_nm peak_bmep_kpa g.conf g.made
  let conf2 := bmepConf.2.1
  let made2 := bmepConf.2.2
  let confMade3 : ℚ × List String :=
    if target_torque_nm ≠ none ∧ target_torque_rpm = none then
      (conf2 - 0.05,
       made2 ++ ["Assumed peak torque rpm from profile (informational only)"])
    else (conf2, made2)
  { engine :=
      { cylinders := if g.cyl ≠ 0 then g.cyl else 4
        cycle := cycle
        bore_m := g.bore_m
        stroke_m := g.stroke_m
        displacement_m3 := g.disp_m3
        idle_rpm := idle
        redline_rpm := redline }
    peak_bmep_kpa := bmepConf.1
    confidence := clamp01 confMade3.1
    assumptions_made := confMade3.2 }

/-- Caller-visible state of the two objects passed to `match_engine` after
the call.  The source reads the specs only through `getattr` and constructs a
fresh output `EngineSpec`; it contains no attribute assignment to either
argument, so threading the caller's objects through the call returns them
unchanged. -/
def match_engine_caller_state (engine : EngineSpec) (assumptions : Assumptions)
    (target_power_kw : Option ℚ) (target_power_rpm : Option Int)
    (target_torque_nm : Option ℚ) (target_torque_rpm : Option Int)
    (peak_bmep_kpa : Option ℚ) : EngineSpec × Assumptions :=
  (engine, assumptions)

/-- `DesignCandidate` dataclass. -/
structure DesignCandidate where
  engine : EngineSpec
  assumptions : Assumptions
  run_config : RunConfig
  peak_bmep_kpa : ℚ
  result : Result
  score : ℚ
  notes : List String
deriving DecidableEq

/-- Segment scan of the solver-local `_interp` helper. -/
def dInterpSegs (x : ℚ) (x0 y0 : ℚ) : List (ℚ × ℚ) → ℚ
  | [] => y0
  | (x1, y1) :: rest =>
      if x ≤ x1 then y0 + (x - x0) / (x1 - x0) * (y1 - y0)
      else dInterpSegs x x1 y1 rest

/-- `_interp` from `solver.py` (clamped linear interpolation; empty input
yields 0).  The final fall-through returns the last y value. -/
def design_interp (xs ys : List ℚ) (x : ℚ) : ℚ :=
  match xs, ys with
  | [], _ => 0
  | _ :: _, ys =>
    if x ≤ xs.headD 0 then ys.headD 0
    else if x ≥ xs.getLastD 0 then ys.getLastD 0
    else
      match xs.zip ys with
      | [] => ys.getLastD 0
      | (x0, y0) :: rest => dInterpSegs x x0 y0 rest

/-- Piston-speed scalar the design filter reads from a candidate Result:
`res.scalars.get("piston_speed_mps_at_redline", 0.0)`. -/
def candidate_piston_speed (res : Result) : ℚ :=
  alistGetD res.scalars "piston_speed_mps_at_redline" 0

/-- One grid combination of `design_candidates`: base run at 1000 kPa, scale
to the power target, constraint filters, scored candidate.  `Except.ok none`
models a `continue`. -/
def candidate_for (target_power_kw : ℚ) (target_power_rpm : Option Int)
    (redline_rpm : Int) (profile cycle fuel : String) (bsfc_g_per_kwh : Option ℚ)
    (bmep_max_kpa piston_speed_max_mps : ℚ) (disp_cc : Int) (cyl : Int) :
    Except String (Option DesignCandidate) :=
  let assumptions : Assumptions :=
    { ve_profile := profile, friction_class := "oem", fuel := fuel,
      bsfc_g_per_kwh := bsfc_g_per_kwh }
  let cfg : RunConfig := { rpm_min := 1000, rpm_max := redline_rpm, rpm_step := 100 }
  let disp_m3 : ℚ := (disp_cc : ℚ) * (1 / 1000000)
  let engine : EngineSpec :=
    { cylinders := cyl, cycle := cycle, bore_m := none, stroke_m := none,
      displacement_m3 := some disp_m3, idle_rpm := 800, redline_rpm := redline_rpm }
  let notes := ["Assumed VE profile", "Scaled peak BMEP from a 1000 kPa base run"]
  match analyze_basic_curves engine assumptions cfg 1000 (some profile) with
  | .error m => .error m
  | .ok base =>
    if base.curves = [] then .ok none
    else
      let rpms := (base.curves.lookup "rpm").getD []
      let pcurve := (base.curves.lookup "power_kw").getD []
      if rpms = [] ∨ pcurve = [] then .ok none
      else
        let ref_rpm : ℚ :=
          match target_power_rpm with
          | some rp => if rp = 0 then alistGetD base.scalars "peak_power_rpm" (redline_rpm : ℚ)
                       else (rp : ℚ)
          | none => alistGetD base.scalars "peak_power_rpm" (redline_rpm : ℚ)
        let ref_power := design_interp rpms pcurve ref_rpm
        if ref_power ≤ 0 then .ok none
        else
          let scale := target_power_kw / ref_power
          let peak_bmep := 1000 * scale
          if peak_bmep > bmep_max_kpa then .ok none
          else
            match analyze_basic_curves engine assumptions cfg peak_bmep (some profile) with
            | .error m => .error m
            | .ok res =>
              if res.curves = [] then .ok none
              else
                let piston_speed := candidate_piston_speed res
                if piston_speed_max_mps > 0 ∧ piston_speed > piston_speed_max_mps then
                  .ok none
                else
                  let peak_power := alistGetD res.scalars "peak_power_kw" 0
                  let peak_power_rpm := alistGetD res.scalars "peak_power_rpm" 0
                  let power_err := |peak_power - target_power_kw| / max target_power_kw (1/1000000000)
                  let rpm_err : ℚ :=
                    match target_power_rpm with
                    | some rp => if rp = 0 then 0
                                 else |peak_power_rpm - (rp : ℚ)| / max ((rp : Int) : ℚ) 1
                    | none => 0
                  let size_pen := ((disp_cc : ℚ) / 1000) * 0.02 + (cyl : ℚ) * 0.01
                  let score := power_err * 1 + rpm_err * 0.3 + size_pen
                  .ok (some
                    { engine := engine, assumptions := assumptions, run_config := cfg,
                      peak_bmep_kpa := peak_bmep, result := res, score := score,
                      notes := notes })

/-- Stable insertion by ascending score (Python's stable `list.sort`). -/
def insertByScore (c : DesignCandidate) : List DesignCandidate → List DesignCandidate
  | [] => [c]
  | d :: rest => if c.score ≤ d.score then c :: d :: rest else d :: insertByScore c rest

/-- Stable sort by ascending score. -/
def sortByScore : List DesignCandidate → List DesignCandidate
  | [] => []
  | c :: rest => insertByScore c (sortByScore rest)

/-- Grid loop of `design_candidates` over `(disp_cc, cyl)` combinations. -/
def design_loop (target_power_kw : ℚ) (target_power_rpm : Option Int)
    (redline_rpm : Int) (profile cycle fuel : String) (bsfc_g_per_kwh : Option ℚ)
    (bmep_max_kpa piston_speed_max_mps : ℚ) :
    List (Int × Int) → Except String (List DesignCandidate)
  | [] => .ok []
  | (disp_cc, cyl) :: rest =>
    match candidate_for target_power_kw target_power_rpm redline_rpm profile cycle
        fuel bsfc_g_per_kwh bmep_max_kpa piston_speed_max_mps disp_cc cyl with
    | .error m => .error m
    | .ok c =>
      match design_loop target_power_kw target_power_rpm redline_rpm profile cycle
          fuel bsfc_g_per_kwh bmep_max_kpa piston_speed_max_mps rest with
      | .error m => .error m
      | .ok out => .ok (c.toList ++ out)

/-- `design_candidates` from `solver.py`: empty for a non-positive power
target, otherwise grid search, filter, stable sort by score, top N. -/
def design_candidates (target_power_kw : ℚ) (target_power_rpm : Option Int)
    (redline_rpm : Int) (profile : String) (cycle : String) (fuel : String)
    (bsfc_g_per_kwh : Option ℚ) (bmep_max_kpa piston_speed_max_mps : ℚ)
    (disp_min_cc disp_max_cc disp_step_cc : Int) (cylinders_list : Option (List Int))
    (top_n : Int) : Except String (List DesignCandidate) :=
  if target_power_kw ≤ 0 then .ok []
  else
    let cyls := cylinders_list.getD [3, 4, 6, 8]
    let combos := (pyRange disp_min_cc (disp_max_cc + 1) disp_step_cc).flatMap
      (fun d => cyls.map (fun c => (d, c)))
    match design_loop target_power_kw target_power_rpm redline_rpm profile cycle
        fuel bsfc_g_per_kwh bmep_max_kpa piston_speed_max_mps combos with
    | .error m => .error m
    | .ok out => .ok ((sortByScore out).take (max 1 top_n).toNat)

/-! ## Shared lemmas -/

/-- `pyClamp` lands in the clamp interval. -/
theorem pyClamp_bounds (x lo hi : ℚ) (h : lo ≤ hi) :
    lo ≤ pyClamp x lo hi ∧ pyClamp x lo hi ≤ hi := by
  unfold pyClamp
  split_ifs with h1 h2
  · exact ⟨le_refl lo, h⟩
  · exact ⟨h, le_refl hi⟩
  · exact ⟨le_of_not_lt h1, le_of_not_lt h2⟩

/-- `mathPi` is positive. -/
theorem mathPi_pos : 0 < mathPi := by norm_num [mathPi]

/-- Points of a named template, empty for an unknown profile name. -/
def template_points (profile : String) : List (ℚ × ℚ) :=
  match TEMPLATES.lookup profile with
  | some t => t.points
  | none => []

/-- First control-point y of a named template. -/
def template_first_y (profile : String) : ℚ :=
  ((template_points profile).headD (0, 0)).2

/-- Last control-point y of a named template. -/
def template_last_y (profile : String) : ℚ :=
  ((template_points profile).getLastD (0, 0)).2

/-! ## Claim C5 -/

/-- C5 counterexample: on the cycle string "x2" the match solver's
denominator (`"2" in c`, giving the 2-stroke value `2*pi`) disagrees with
`2*pi` times the curve generator's `revs_per_power` (`startswith("2")` fails,
giving 2, hence `4*pi`). -/
theorem c5_counterexample :
    cycle_denominator "x2" ≠
      2 * mathPi * ((revs_per_power_from_cycle "x2" : Int) : ℚ) := by
  have h1 : (lowerStrip "x2").contains '2' = true := by decide
  have h2 : startsWithTwo (lowerStrip "x2") = false := by decide
  rw [cycle_denominator, revs_per_power_from_cycle, h1, h2]
  norm_num [mathPi]

/-- C5 (amended): for every cycle string on which the two tests agree — the
lowercased stripped string contains a "2" exactly when it starts with one, as
is the case for the canonical "4-stroke" and "2-stroke" — the match solver's
torque-to-BMEP denominator equals `2*pi` times the `revs_per_power` the curve
generator derives from the same string. -/
theorem c5_cycle_tests_agree (cycle : String)
    (h : (lowerStrip cycle).contains '2' = startsWithTwo (lowerStrip cycle)) :
    cycle_denominator cycle =
      2 * mathPi * ((revs_per_power_from_cycle cycle : Int) : ℚ) := by
  unfold cycle_denominator revs_per_power_from_cycle
  cases hb : startsWithTwo (lowerStrip cycle) with
  | false => rw [h, hb]; simp only [Bool.false_eq_true, if_false]; ring
  | true => rw [h, hb]; simp only [if_true]; ring

/-- C5 witness: the agreement hypothesis holds for "2-stroke". -/
theorem c5_witness :
    cycle_denominator "2-stroke" =
      2 * mathPi * ((revs_per_power_from_cycle "2-stroke" : Int) : ℚ) :=
  c5_cycle_tests_agree "2-stroke" (by decide)

/-! ## Claim C7 -/

/-- C7: for each of the three profiles and every x in [0,1],
`normalized_profile` succeeds with a value in [0,1], and at x=0 / x=1 it
returns exactly the first / last control-point y of the profile. -/
theorem c7_normalized_profile_bounds (profile : String) (x : ℚ)
    (hp : profile ∈ ["torque_biased", "balanced", "top_end"])
    (h0 : 0 ≤ x) (h1 : x ≤ 1) :
    ∃ y, normalized_profile profile x = .ok y ∧ 0 ≤ y ∧ y ≤ 1 ∧
      normalized_profile profile 0 = .ok (template_first_y profile) ∧
      normalized_profile profile 1 = .ok (template_last_y profile) := by
  have hb := fun q => pyClamp_bounds q 0 1 (by norm_num)
  fin_cases hp
  · refine ⟨pyClamp (piecewise_linear (template_points "torque_biased") x) 0 1, rfl,
      (hb _).1, (hb _).2, ?_, ?_⟩
    · simp [normalized_profile, TEMPLATES, List.lookup, template_first_y, template_last_y,
        template_points, piecewise_linear, sortByFst, insertByFst, plSegs, pyClamp] <;> norm_num [normalized_profile, TEMPLATES, List.lookup, template_first_y, template_last_y,
        template_points, piecewise_linear, sortByFst, insertByFst, plSegs, pyClamp]
    · simp [normalized_profile, TEMPLATES, List.lookup, template_first_y, template_last_y,
        template_points, piecewise_linear, sortByFst, insertByFst, plSegs, pyClamp] <;> norm_num [normalized_profile, TEMPLATES, List.lookup, template_first_y, template_last_y,
        template_points, piecewise_linear, sortByFst, insertByFst, plSegs, pyClamp]
  · refine ⟨pyClamp (piecewise_linear (template_points "balanced") x) 0 1, rfl,
      (hb _).1, (hb _).2, ?_, ?_⟩
    · simp [normalized_profile, TEMPLATES, List.lookup, template_first_y, template_last_y,
        template_points, piecewise_linear, sortByFst, insertByFst, plSegs, pyClamp] <;> norm_num [normalized_profile, TEMPLATES, List.lookup, template_first_y, template_last_y,
        template_points, piecewise_linear, sortByFst, insertByFst, plSegs, pyClamp]
    · simp [normalized_profile, TEMPLATES, List.lookup, template_first_y, template_last_y,
        template_points, piecewise_linear, sortByFst, insertByFst, plSegs, pyClamp] <;> norm_num [normalized_profile, TEMPLATES, List.lookup, template_first_y, template_last_y,
        template_points, piecewise_linear, sortByFst, insertByFst, plSegs, pyClamp]
  · refine ⟨pyClamp (piecewise_linear (template_points "top_end") x) 0 1, rfl,
      (hb _).1, (hb _).2, ?_, ?_⟩
    · simp [normalized_profile, TEMPLATES, List.lookup, template_first_y, template_last_y,
        template_points, piecewise_linear, sortByFst, insertByFst, plSegs, pyClamp] <;> norm_num [normalized_profile, TEMPLATES, List.lookup, template_first_y, template_last_y,
        template_points, piecewise_linear, sortByFst, insertByFst, plSegs, pyClamp]
    · simp [normalized_profile, TEMPLATES, List.lookup, template_first_y, template_last_y,
        template_points, piecewise_linear, sortByFst, insertByFst, plSegs, pyClamp] <;> norm_num [normalized_profile, TEMPLATES, List.lookup, template_first_y, template_last_y,
        template_points, piecewise_linear, sortByFst, insertByFst, plSegs, pyClamp]

/-- C7 witness at profile "balanced", x = 1/2. -/
theorem c7_witness :
    ∃ y, normalized_profile "balanced" (1/2) = .ok y ∧ 0 ≤ y ∧ y ≤ 1 ∧
      normalized_profile "balanced" 0 = .ok (template_first_y "balanced") ∧
      normalized_profile "balanced" 1 = .ok (template_last_y "balanced") :=
  c7_normalized_profile_bounds "balanced" (1/2) (by simp) (by norm_num) (by norm_num)

/-! ## Claim C8 -/

/-- C8: for every bmep_pa >= 0, displacement > 0 and revs_per_power in {1,2},
converting BMEP to torque and back recovers the BMEP within 1e-6 absolute
error (in fact exactly, in exact rational arithmetic). -/
theorem c8_bmep_torque_roundtrip (bmep_pa Vd : ℚ) (rpp : Int)
    (hb : 0 ≤ bmep_pa) (hV : 0 < Vd) (hr : rpp = 1 ∨ rpp = 2) :
    ∃ t b, torque_nm_from_bmep_pa bmep_pa Vd rpp = .ok t ∧
      bmep_pa_from_torque_nm t Vd rpp = .ok b ∧ |b - bmep_pa| ≤ 1/1000000 := by
  have hrq : (0 : ℚ) < 2 * mathPi * ((rpp : Int) : ℚ) := by
    rcases hr with h | h <;> subst h <;> norm_num [mathPi]
  have hrr : ¬¬(rpp = 1 ∨ rpp = 2) := not_not_intro hr
  have ht : 0 ≤ bmep_pa * Vd / (2 * mathPi * ((rpp : Int) : ℚ)) := by positivity
  refine ⟨bmep_pa * Vd / (2 * mathPi * ((rpp : Int) : ℚ)), bmep_pa, ?_, ?_, by simp⟩
  · unfold torque_nm_from_bmep_pa
    rw [if_neg (not_lt.mpr hb), if_neg (not_le.mpr hV), if_neg hrr]
  · unfold bmep_pa_from_torque_nm
    rw [if_neg (not_lt.mpr ht), if_neg (not_le.mpr hV), if_neg hrr]
    congr 1
    field_simp

/-- C8 witness at bmep_pa = 1000000 Pa, Vd = 1/500 m^3, revs_per_power = 2. -/
theorem c8_witness :
    ∃ t b, torque_nm_from_bmep_pa 1000000 (1/500) 2 = .ok t ∧
      bmep_pa_from_torque_nm t (1/500) 2 = .ok b ∧ |b - 1000000| ≤ 1/1000000 :=
  c8_bmep_torque_roundtrip 1000000 (1/500) 2 (by norm_num) (by norm_num) (Or.inr rfl)

/-! ## Claim C6 -/

/-- C6: whenever `match_engine` is called without an explicit peak BMEP but
with a torque target, and the geometry block resolves a (positive)
displacement, the returned `peak_bmep_kpa` is the inverse-formula value
`torque * cycle_denominator / displacement / 1000`, for every power target
also supplied (the torque target takes precedence and the result does not
depend on `target_power_kw` / `target_power_rpm`). -/
theorem c6_match_engine_torque_bmep (engine : EngineSpec) (assumptions : Assumptions)
    (target_power_kw : Option ℚ) (target_power_rpm target_torque_rpm : Option Int)
    (t d : ℚ)
    (hd : (match_geometry (profile_local assumptions) (geo_init engine)).disp_m3 = some d)
    (hd0 : 0 < d) :
    (match_engine engine assumptions target_power_kw target_power_rpm (some t)
        target_torque_rpm none).peak_bmep_kpa =
      t * cycle_denominator (cycle_local engine) / d / 1000 := by
  unfold match_engine
  simp only [infer_bmep, hd, bmep_kpa_from_torque_nm]

/-- C6 witness: fully specified 2.0 L four-cylinder, torque target 200 Nm and
a simultaneous power target. -/
theorem c6_witness :
    (match_engine
        { cylinders := 4, cycle := "4-stroke", bore_m := some 0.086,
          stroke_m := some 0.086, displacement_m3 := some (1/500),
          idle_rpm := 800, redline_rpm := 7000 }
        { } (some 100) (some 6000) (some 200) none none).peak_bmep_kpa =
      200 * cycle_denominator "4-stroke" / (1/500) / 1000 := by
  have h := c6_match_engine_torque_bmep
    { cylinders := 4, cycle := "4-stroke", bore_m := some 0.086,
      stroke_m := some 0.086, displacement_m3 := some (1/500),
      idle_rpm := 800, redline_rpm := 7000 }
    { } (some 100) (some 6000) none 200 (1/500) rfl (by norm_num)
  exact h

/-! ## Claim C10 -/

/-- The geometry block never rewrites a nonzero cylinder count. -/
theorem match_geometry_cyl_carried (profile : String) (st : GeoState)
    (h : st.cyl ≠ 0) : (match_geometry profile st).cyl = st.cyl := by
  unfold match_geometry
  rcases st with ⟨cyl, bore, stroke, disp, conf, made⟩
  simp only at h
  cases disp <;> cases bore <;> cases stroke <;> simp [h]

/-- C10: `match_engine` returns a freshly constructed `EngineSpec` built from
the geometry-block outputs (never the caller's object), its cylinder count is
resolved — equal to the caller's when that was nonzero, defaulted to 4 when
still zero — and the caller-visible state of both input objects after the
call is unchanged. -/
theorem c10_match_engine_fresh_engine (engine : EngineSpec) (assumptions : Assumptions)
    (target_power_kw : Option ℚ) (target_power_rpm : Option Int)
    (target_torque_nm : Option ℚ) (target_torque_rpm : Option Int)
    (peak_bmep_kpa : Option ℚ) :
    (match_engine engine assumptions target_power_kw target_power_rpm
        target_torque_nm target_torque_rpm peak_bmep_kpa).engine =
      { cylinders :=
          if (match_geometry (profile_local assumptions) (geo_init engine)).cyl ≠ 0
          then (match_geometry (profile_local assumptions) (geo_init engine)).cyl
          else 4
        cycle := cycle_local engine
        bore_m := (match_geometry (profile_local assumptions) (geo_init engine)).bore_m
        stroke_m := (match_geometry (profile_local assumptions) (geo_init engine)).stroke_m
        displacement_m3 :=
          (match_geometry (profile_local assumptions) (geo_init engine)).disp_m3
        idle_rpm := if engine.idle_rpm = 0 then 800 else engine.idle_rpm
        redline_rpm := if engine.redline_rpm = 0 then 7000 else engine.redline_rpm } ∧
    (match_engine engine assumptions target_power_kw target_power_rpm
        target_torque_nm target_torque_rpm peak_bmep_kpa).engine.cylinders ≠ 0 ∧
    (engine.cylinders ≠ 0 →
      (match_engine engine assumptions target_power_kw target_power_rpm
          target_torque_nm target_torque_rpm peak_bmep_kpa).engine.cylinders =
        engine.cylinders) ∧
    match_engine_caller_state engine assumptions target_power_kw target_power_rpm
        target_torque_nm target_torque_rpm peak_bmep_kpa = (engine, assumptions) := by
  refine ⟨rfl, ?_, ?_, rfl⟩
  · show (if (match_geometry (profile_local assumptions) (geo_init engine)).cyl ≠ 0
      then (match_geometry (profile_local assumptions) (geo_init engine)).cyl
      else 4) ≠ 0
    split_ifs with h
    · exact h
    · norm_num
  · intro h
    show (if (match_geometry (profile_local assumptions) (geo_init engine)).cyl ≠ 0
      then (match_geometry (profile_local assumptions) (geo_init engine)).cyl
      else 4) = engine.cylinders
    have hc : (match_geometry (profile_local assumptions) (geo_init engine)).cyl =
        engine.cylinders :=
      match_geometry_cyl_carried (profile_local assumptions) (geo_init engine) h
    rw [hc, if_pos h]

/-- C10 witness: a caller-provided six-cylinder spec keeps its cylinder
count. -/
theorem c10_witness :
    (match_engine { cylinders := 6, displacement_m3 := some (3/1000) } { }
        none none none none none).engine.cylinders = 6 :=
  (c10_match_engine_fresh_engine { cylinders := 6, displacement_m3 := some (3/1000) } { }
      none none none none none).2.2.1 (by decide)

/-! ## Path lemmas for `analyze_basic_curves` -/

/-- With positive cylinders, positive-if-present geometry, and a positive
idle < redline, engine validation produces no ERROR-level issue. -/
theorem validate_no_errors (c : Int) (bore stroke disp : Option ℚ) (idle redline : Int)
    (hc : 0 < c)
    (hbore : ∀ b, bore = some b → 0 < b)
    (hstroke : ∀ s, stroke = some s → 0 < s)
    (hdisp : ∀ d, disp = some d → 0 < d)
    (hidle : 0 < idle) (hredline : idle < redline) :
    has_errors (validate_engine_inputs (some c) bore stroke disp
      (some idle) (some redline)) = false := by
  have hr : 0 < redline := lt_trans hidle hredline
  unfold validate_engine_inputs has_errors
  rcases bore with _ | b <;> rcases stroke with _ | s <;> rcases disp with _ | d <;>
    simp_all [isPosOpt] <;>
    rw [if_neg (not_le.mpr hredline)] <;> split_ifs <;> simp

/-- `analyze_basic_curves` on a validation-clean engine with a direct
displacement runs the main pipeline. -/
theorem analyze_path_direct (engine : EngineSpec) (assumptions : Assumptions)
    (cfg : RunConfig) (peak_bmep_kpa : ℚ) (profile : Option String) (d : ℚ)
    (hv : has_errors (validateIssues engine) = false)
    (hd : engine.displacement_m3 = some d) :
    analyze_basic_curves engine assumptions cfg peak_bmep_kpa profile =
      analyze_rest engine assumptions cfg peak_bmep_kpa profile
        (warnStrings engine) d := by
  unfold analyze_basic_curves
  simp only [hv, hd, Bool.false_eq_true, if_false]

/-- `analyze_basic_curves` on a validation-clean engine with bore+stroke but
no direct displacement derives the displacement and runs the main pipeline. -/
theorem analyze_path_derived (engine : EngineSpec) (assumptions : Assumptions)
    (cfg : RunConfig) (peak_bmep_kpa : ℚ) (profile : Option String) (b s d : ℚ)
    (hv : has_errors (validateIssues engine) = false)
    (hd : engine.displacement_m3 = none)
    (hb : engine.bore_m = some b) (hs : engine.stroke_m = some s)
    (hder : displacement_m3_from_bore_stroke b s engine.cylinders = .ok d) :
    analyze_basic_curves engine assumptions cfg peak_bmep_kpa profile =
      analyze_rest engine assumptions cfg peak_bmep_kpa profile
        (warnStrings engine) d := by
  unfold analyze_basic_curves
  simp only [hv, hd, hb, hs, hder, Bool.false_eq_true, if_false]

/-- `analyze_basic_curves` aborts with the validation issue strings when an
ERROR-level issue is present. -/
theorem analyze_path_invalid (engine : EngineSpec) (assumptions : Assumptions)
    (cfg : RunConfig) (peak_bmep_kpa : ℚ) (profile : Option String)
    (hv : has_errors (validateIssues engine) = true) :
    analyze_basic_curves engine assumptions cfg peak_bmep_kpa profile =
      .ok { scalars := [], curves := [],
            issues := (validateIssues engine).map issueStr } := by
  unfold analyze_basic_curves
  simp only [hv, if_true]

/-- `analyze_basic_curves` aborts with an appended ERROR issue when no
displacement is resolvable. -/
theorem analyze_path_missing (engine : EngineSpec) (assumptions : Assumptions)
    (cfg : RunConfig) (peak_bmep_kpa : ℚ) (profile : Option String)
    (hv : has_errors (validateIssues engine) = false)
    (hd : engine.displacement_m3 = none)
    (hbs : engine.bore_m = none ∨ engine.stroke_m = none) :
    analyze_basic_curves engine assumptions cfg peak_bmep_kpa profile =
      .ok { scalars := [], curves := [],
            issues := (validateIssues engine).map issueStr ++
              ["[ERROR] displacement: Cannot compute displacement (need bore_m+stroke_m or displacement_m3)."] } := by
  unfold analyze_basic_curves
  rcases hbs with h | h
  · simp only [hv, hd, h, Bool.false_eq_true, if_false]
  · rcases hb : engine.bore_m with _ | b <;>
      simp only [hv, hd, h, hb, Bool.false_eq_true, if_false]

/-- An invalid `RunConfig` makes the pipeline raise inside `rpm_grid`. -/
theorem analyze_rest_error_of_bad_cfg (engine : EngineSpec) (assumptions : Assumptions)
    (cfg : RunConfig) (peak_bmep_kpa : ℚ) (profile : Option String)
    (warnIssues : List String) (d : ℚ)
    (hcfg : cfg.rpm_step ≤ 0 ∨ cfg.rpm_max ≤ cfg.rpm_min) :
    ∃ msg, analyze_rest engine assumptions cfg peak_bmep_kpa profile warnIssues d =
      .error msg := by
  unfold analyze_rest rpm_grid
  by_cases h1 : cfg.rpm_step ≤ 0
  · exact ⟨_, by rw [if_pos h1]⟩
  · have h2 : cfg.rpm_max ≤ cfg.rpm_min := hcfg.resolve_left h1
    exact ⟨_, by rw [if_neg h1, if_pos h2]⟩

/-! ## Claim C1 -/

/-- C1 counterexample: with a fully valid engine but `rpm_step = 0`,
`analyze_basic_curves` does not return an ERROR-issue Result — it raises
(propagates `rpm_grid`'s ValueError). -/
theorem c1_counterexample :
    analyze_basic_curves
      { cylinders := 4, cycle := "4-stroke", bore_m := none, stroke_m := none,
        displacement_m3 := some (1/500), idle_rpm := 800, redline_rpm := 7000 }
      { } { rpm_min := 1000, rpm_max := 7000, rpm_step := 0 } 1000 none =
      .error "rpm_step must be > 0" := by
  have hv : has_errors (validateIssues
      { cylinders := 4, cycle := "4-stroke", bore_m := none, stroke_m := none,
        displacement_m3 := some (1/500), idle_rpm := 800, redline_rpm := 7000 }) = false :=
    validate_no_errors 4 none none (some (1/500)) 800 7000 (by norm_num)
      (by intro b h; cases h) (by intro s h; cases h)
      (by intro d h; rw [Option.some_inj] at h; rw [← h]; norm_num)
      (by norm_num) (by norm_num)
  have h := analyze_path_direct
    { cylinders := 4, cycle := "4-stroke", bore_m := none, stroke_m := none,
      displacement_m3 := some (1/500), idle_rpm := 800, redline_rpm := 7000 }
    { } { rpm_min := 1000, rpm_max := 7000, rpm_step := 0 } 1000 none (1/500) hv rfl
  rw [h]
  unfold analyze_rest rpm_grid
  rw [if_pos (show ({ rpm_min := 1000, rpm_max := 7000, rpm_step := 0 } : RunConfig).rpm_step ≤ 0 by norm_num)]

/-- C1 (amended): for every RunConfig with `rpm_step <= 0` or
`rpm_max <= rpm_min` and otherwise valid engine inputs with resolvable
displacement, `analyze_basic_curves` does not return a Result at all: the
`ValueError` raised by `rpm_grid` propagates out of it (the
ERROR-issue/empty-curves abort path is used only for engine-validation
failures and unresolvable displacement). -/
theorem c1_invalid_runconfig_raises (engine : EngineSpec) (assumptions : Assumptions)
    (cfg : RunConfig) (peak_bmep_kpa : ℚ) (profile : Option String)
    (hc : 0 < engine.cylinders)
    (hbore : ∀ b, engine.bore_m = some b → 0 < b)
    (hstroke : ∀ s, engine.stroke_m = some s → 0 < s)
    (hdisp : ∀ d, engine.displacement_m3 = some d → 0 < d)
    (hidle : 0 < engine.idle_rpm) (hredline : engine.idle_rpm < engine.redline_rpm)
    (hres : engine.displacement_m3 ≠ none ∨
      (engine.bore_m ≠ none ∧ engine.stroke_m ≠ none))
    (hcfg : cfg.rpm_step ≤ 0 ∨ cfg.rpm_max ≤ cfg.rpm_min) :
    ∃ msg, analyze_basic_curves engine assumptions cfg peak_bmep_kpa profile =
      .error msg := by
  have hv : has_errors (validateIssues engine) = false :=
    validate_no_errors engine.cylinders engine.bore_m engine.stroke_m
      engine.displacement_m3 engine.idle_rpm engine.redline_rpm
      hc hbore hstroke hdisp hidle hredline
  rcases hd : engine.displacement_m3 with _ | d
  · rcases hres with h | ⟨hbne, hsne⟩
    · exact absurd hd h
    · rcases hb : engine.bore_m with _ | b
      · exact absurd hb hbne
      · rcases hs : engine.stroke_m with _ | s
        · exact absurd hs hsne
        · have hbp : 0 < b := hbore b hb
          have hsp : 0 < s := hstroke s hs
          have hder : displacement_m3_from_bore_stroke b s engine.cylinders =
              .ok ((mathPi / 4) * b ^ 2 * s * ((engine.cylinders : Int) : ℚ)) := by
            unfold displacement_m3_from_bore_stroke
            rw [if_neg (by push_neg; exact ⟨hbp, hsp⟩), if_neg (not_le.mpr hc)]
          rw [analyze_path_derived engine assumptions cfg peak_bmep_kpa profile b s _
            hv hd hb hs hder]
          exact analyze_rest_error_of_bad_cfg _ _ _ _ _ _ _ hcfg
  · rw [analyze_path_direct _ _ _ _ _ d hv hd]
    exact analyze_rest_error_of_bad_cfg _ _ _ _ _ _ _ hcfg

/-- C1 witness: a concrete valid engine with a reversed RPM window. -/
theorem c1_witness :
    ∃ msg, analyze_basic_curves
      { cylinders := 4, cycle := "4-stroke", bore_m := some (43/500),
        stroke_m := some (43/500), displacement_m3 := none,
        idle_rpm := 800, redline_rpm := 7000 }
      { } { rpm_min := 7000, rpm_max := 1000, rpm_step := 100 } 1000 none =
      .error msg :=
  c1_invalid_runconfig_raises _ { } _ 1000 none (by norm_num)
    (by intro b h; rw [Option.some_inj] at h; rw [← h]; norm_num)
    (by intro s h; rw [Option.some_inj] at h; rw [← h]; norm_num)
    (by intro d h; cases h)
    (by norm_num) (by norm_num)
    (Or.inr ⟨by simp, by simp⟩) (Or.inr (by norm_num))

/-! ## Claim C9 -/

/-- `curvePoints` preserves the number of grid points when it succeeds. -/
theorem curvePoints_length (f : Int → Except String (ℚ × ℚ × ℚ)) :
    ∀ (l : List Int) (ps : List (ℚ × ℚ × ℚ)),
      curvePoints f l = .ok ps → ps.length = l.length := by
  intro l
  induction l with
  | nil => intro ps h; simp only [curvePoints] at h; cases h; rfl
  | cons r rest ih =>
    intro ps h
    simp only [curvePoints] at h
    cases hf : f r with
    | error m => rw [hf] at h; cases h
    | ok p =>
      rw [hf] at h
      cases hrest : curvePoints f rest with
      | error m => rw [hrest] at h; cases h
      | ok qs =>
        rw [hrest] at h
        cases h
        simp [ih qs hrest]

/-- The BMEP warning step leaves curves untouched. -/
theorem bmepWarnStep_curves (r : Result) : (bmepWarnStep r).curves = r.curves := by
  unfold bmepWarnStep
  dsimp only
  split_ifs <;> rfl

/-- Stage-5 augmentation leaves curves untouched when it succeeds. -/
theorem add_stage5_curves (r : Result) (e : EngineSpec) (a : Assumptions)
    (r' : Result) (h : add_stage5_outputs r e a = .ok r') :
    r'.curves = r.curves := by
  unfold add_stage5_outputs at h
  dsimp only at h
  cases h1 : fuel_flow_lph_from_power_kw
      (alistGetD (alistSet r.scalars "bsfc_g_per_kwh"
        (a.bsfc_g_per_kwh.getD (bsfc_default_g_per_kwh a.fuel))) "peak_power_kw" 0)
      (a.bsfc_g_per_kwh.getD (bsfc_default_g_per_kwh a.fuel)) a.fuel with
  | error m => simp only [h1] at h; cases h
  | ok wot =>
    simp only [h1] at h
    cases h2 : fuel_flow_lph_from_power_kw 20
        (a.bsfc_g_per_kwh.getD (bsfc_default_g_per_kwh a.fuel)) a.fuel with
    | error m => simp only [h2] at h; cases h
    | ok cruise =>
      simp only [h2] at h
      cases hs : e.stroke_m with
      | none => simp only [hs] at h; cases h; exact bmepWarnStep_curves _
      | some s =>
        simp only [hs] at h
        cases h3 : mean_piston_speed_mps s (e.redline_rpm : ℚ) with
        | error m => simp only [h3] at h; cases h
        | ok ps => simp only [h3] at h; cases h; exact bmepWarnStep_curves _

/-- A successful run of the resolved-displacement pipeline yields exactly the
four curves, each as long as the RPM grid. -/
theorem analyze_rest_ok_shape (engine : EngineSpec) (assumptions : Assumptions)
    (cfg : RunConfig) (peak_bmep_kpa : ℚ) (profile : Option String)
    (warnIssues : List String) (d : ℚ) (r : Result)
    (hok : analyze_rest engine assumptions cfg peak_bmep_kpa profile warnIssues d =
      .ok r) :
    r.curves.map Prod.fst = ["rpm", "bmep_kpa", "torque_nm", "power_kw"] ∧
    ∃ rpms, rpm_grid cfg = .ok rpms ∧
      ∀ c ∈ r.curves, c.2.length = rpms.length := by
  unfold analyze_rest at hok
  dsimp only at hok
  cases hg : rpm_grid cfg with
  | error m => simp only [hg] at hok; exact Except.noConfusion hok
  | ok rpms =>
    simp only [hg] at hok
    cases hp : curvePoints
        (curve_point (profile.getD assumptions.ve_profile) engine.idle_rpm
          engine.redline_rpm (peak_bmep_kpa * 1000) d
          (revs_per_power_from_cycle engine.cycle)) rpms with
    | error m => simp only [hp] at hok; exact Except.noConfusion hok
    | ok pts =>
      simp only [hp] at hok
      have hlen : pts.length = rpms.length := curvePoints_length _ rpms pts hp
      have hcurves := add_stage5_curves _ engine assumptions r hok
      refine ⟨?_, rpms, rfl, ?_⟩
      · rw [hcurves]; rfl
      · intro c hc
        rw [hcurves] at hc
        simp only [List.mem_cons, List.not_mem_nil, or_false] at hc
        rcases hc with h | h | h | h <;> subst h <;>
          simp [List.length_map, hlen]

/-- Every issue string attached by validation at ERROR level starts with the
"[ERROR]" marker. -/
theorem issueStr_error_marker (i : ValidationIssue) (h : i.level = "ERROR") :
    "[ERROR]".data <+: (issueStr i).data := by
  refine ⟨' ' :: (i.fieldName.data ++ ':' :: ' ' :: i.message.data), ?_⟩
  simp [issueStr, h, String.data_append]

/-- `has_errors` produces a witnessing ERROR-level issue. -/
theorem exists_error_of_has_errors (l : List ValidationIssue)
    (h : has_errors l = true) : ∃ i ∈ l, i.level = "ERROR" := by
  simpa [has_errors, List.any_eq_true, decide_eq_true_eq] using h

/-- Variant path lemma: derived-displacement failure propagates the raised
error. -/
theorem analyze_path_derived_raise (engine : EngineSpec) (assumptions : Assumptions)
    (cfg : RunConfig) (peak_bmep_kpa : ℚ) (profile : Option String) (b s : ℚ)
    (m : String)
    (hv : has_errors (validateIssues engine) = false)
    (hd : engine.displacement_m3 = none)
    (hb : engine.bore_m = some b) (hs : engine.stroke_m = some s)
    (hder : displacement_m3_from_bore_stroke b s engine.cylinders = .error m) :
    analyze_basic_curves engine assumptions cfg peak_bmep_kpa profile = .error m := by
  unfold analyze_basic_curves
  simp only [hv, hd, hb, hs, hder, Bool.false_eq_true, if_false]

/-- C9: whenever `analyze_basic_curves` returns a Result carrying no
"[ERROR]"-level issue, the curves mapping has exactly the keys rpm, bmep_kpa,
torque_nm, power_kw (in insertion order), and all four sequences have one
entry per RPM-grid point. -/
theorem c9_curves_shape (engine : EngineSpec) (assumptions : Assumptions)
    (cfg : RunConfig) (peak_bmep_kpa : ℚ) (profile : Option String) (r : Result)
    (hok : analyze_basic_curves engine assumptions cfg peak_bmep_kpa profile = .ok r)
    (hnoerr : ∀ s ∈ r.issues, ¬ ("[ERROR]".data <+: s.data)) :
    r.curves.map Prod.fst = ["rpm", "bmep_kpa", "torque_nm", "power_kw"] ∧
    ∃ rpms, rpm_grid cfg = .ok rpms ∧
      ∀ c ∈ r.curves, c.2.length = rpms.length := by
  by_cases hv : has_errors (validateIssues engine) = true
  · rw [analyze_path_invalid engine assumptions cfg peak_bmep_kpa profile hv] at hok
    obtain ⟨i, hi, hlev⟩ := exists_error_of_has_errors _ hv
    have hmem : issueStr i ∈ r.issues := by
      cases hok
      exact List.mem_map_of_mem issueStr hi
    exact absurd (issueStr_error_marker i hlev) (hnoerr _ hmem)
  · rw [Bool.not_eq_true] at hv
    cases hd : engine.displacement_m3 with
    | some d =>
      rw [analyze_path_direct engine assumptions cfg peak_bmep_kpa profile d hv hd] at hok
      exact analyze_rest_ok_shape _ _ _ _ _ _ _ _ hok
    | none =>
      cases hb : engine.bore_m with
      | some b =>
        cases hs : engine.stroke_m with
        | some s =>
          cases hder : displacement_m3_from_bore_stroke b s engine.cylinders with
          | error m =>
            rw [analyze_path_derived_raise engine assumptions cfg peak_bmep_kpa
              profile b s m hv hd hb hs hder] at hok
            cases hok
          | ok dd =>
            rw [analyze_path_derived engine assumptions cfg peak_bmep_kpa
              profile b s dd hv hd hb hs hder] at hok
            exact analyze_rest_ok_shape _ _ _ _ _ _ _ _ hok
        | none =>
          rw [analyze_path_missing engine assumptions cfg peak_bmep_kpa profile hv hd
            (Or.inr hs)] at hok
          have hmem : "[ERROR] displacement: Cannot compute displacement (need bore_m+stroke_m or displacement_m3)." ∈ r.issues := by
            cases hok
            simp
          exact absurd (by decide) (hnoerr _ hmem)
      | none =>
        rw [analyze_path_missing engine assumptions cfg peak_bmep_kpa profile hv hd
          (Or.inl hb)] at hok
        have hmem : "[ERROR] displacement: Cannot compute displacement (need bore_m+stroke_m or displacement_m3)." ∈ r.issues := by
          cases hok
          simp
        exact absurd (by decide) (hnoerr _ hmem)

/-- Concrete Result of the single-point zero-BMEP run used by the C9
witness. -/
def c9WitnessResult : Result :=
  { scalars := [("displacement_l", 2), ("peak_bmep_kpa", 0),
      ("peak_torque_nm", 0), ("peak_torque_rpm", 1000),
      ("peak_power_kw", 0), ("peak_power_rpm", 1000),
      ("bsfc_g_per_kwh", 270), ("fuel_wot_lph_at_peak_power", 0),
      ("fuel_cruise_lph_at_20kw", 1080/149)],
    curves := [("rpm", [1000]), ("bmep_kpa", [0]), ("torque_nm", [0]),
      ("power_kw", [0])],
    issues := [] }

/-- C9 witness: a concrete clean run (2.0 L engine, single-point grid, zero
peak BMEP) returns a Result with no ERROR issue whose curves are exactly the
four standard keys with one entry per grid point. -/
theorem c9_witness :
    analyze_basic_curves
      { cylinders := 4, cycle := "4-stroke", displacement_m3 := some (1/500),
        idle_rpm := 800, redline_rpm := 7000 }
      { } { rpm_min := 1000, rpm_max := 1001, rpm_step := 100 } 0 none =
      .ok c9WitnessResult ∧
    c9WitnessResult.curves.map Prod.fst = ["rpm", "bmep_kpa", "torque_nm", "power_kw"] ∧
    ∃ rpms, rpm_grid { rpm_min := 1000, rpm_max := 1001, rpm_step := 100 } =
        .ok rpms ∧
      ∀ c ∈ c9WitnessResult.curves, c.2.length = rpms.length := by
  have hv : has_errors (validateIssues
      { cylinders := 4, cycle := "4-stroke", displacement_m3 := some (1/500),
        idle_rpm := 800, redline_rpm := 7000 }) = false :=
    validate_no_errors 4 none none (some (1/500)) 800 7000 (by norm_num)
      (by intro b h; cases h) (by intro s h; cases h)
      (by intro d h; rw [Option.some_inj] at h; rw [← h]; norm_num)
      (by norm_num) (by norm_num)
  have hgrid : rpm_grid { rpm_min := 1000, rpm_max := 1001, rpm_step := 100 } =
      .ok [1000] := by
    norm_num [rpm_grid, pyRange, List.range_succ]
    intro x
    have h : (1 : ℕ) / Int.toNat 100 = 0 := by decide
    rw [h]
    exact Nat.zero_le x
  have hcp : curve_point "balanced" 800 7000 0 (1/500) 2 1000 = .ok (0, 0, 0) := by
    simp [curve_point, rpm_fraction, normalized_profile, TEMPLATES, List.lookup,
      piecewise_linear, sortByFst, insertByFst, plSegs, pyClamp, torque_nm_from_bmep_pa,
      power_kw_from_torque_rpm, power_w_from_torque_rpm, rpm_to_rad_s, mathPi,
      Except.map]
    norm_num
  have hcps : curvePoints (curve_point "balanced" 800 7000 0 (1/500) 2) [1000] =
      .ok [(0, 0, 0)] := by
    unfold curvePoints
    rw [hcp]
    rfl
  have hok : analyze_basic_curves
      { cylinders := 4, cycle := "4-stroke", displacement_m3 := some (1/500),
        idle_rpm := 800, redline_rpm := 7000 }
      { } { rpm_min := 1000, rpm_max := 1001, rpm_step := 100 } 0 none =
      .ok c9WitnessResult := by
    unfold c9WitnessResult
    rw [analyze_path_direct
      { cylinders := 4, cycle := "4-stroke", displacement_m3 := some (1/500),
        idle_rpm := 800, redline_rpm := 7000 }
      { } { rpm_min := 1000, rpm_max := 1001, rpm_step := 100 } 0 none (1/500) hv rfl]
    unfold analyze_rest
    simp only [hgrid]
    dsimp only [Option.getD]
    rw [show revs_per_power_from_cycle "4-stroke" = 2 from by decide, zero_mul, hcps]
    have hd1 : lowerStrip "petrol" ≠ ['d', 'i', 'e', 's', 'e', 'l'] := by decide
    have hd2 : lowerStrip "petrol" ≠ ['e', '8', '5'] := by decide
    simp [warnStrings, validateIssues, validate_engine_inputs, isPosOpt, issueStr,
      add_stage5_outputs, alistSet, alistGetD, List.lookup, fuel_flow_lph_from_power_kw,
      bsfc_default_g_per_kwh, fuel_density_kg_per_l, bmepWarnStep, pyMax, List.findIdx,
      List.findIdx.go, hd1, hd2]
    norm_num
  exact ⟨hok, c9_curves_shape
    { cylinders := 4, cycle := "4-stroke", displacement_m3 := some (1/500),
      idle_rpm := 800, redline_rpm := 7000 }
    { } { rpm_min := 1000, rpm_max := 1001, rpm_step := 100 } 0 none _ hok
    (by simp [c9WitnessResult])⟩

/-! ## Claim C2 -/

/-- Membership through the stable score insertion. -/
theorem mem_insertByScore (a c : DesignCandidate) (l : List DesignCandidate)
    (h : a ∈ insertByScore c l) : a = c ∨ a ∈ l := by
  induction l with
  | nil => simpa [insertByScore] using h
  | cons d rest ih =>
    unfold insertByScore at h
    split_ifs at h
    · simpa using h
    · rcases List.mem_cons.mp h with h1 | h1
      · exact Or.inr (by simp [h1])
      · rcases ih h1 with h2 | h2
        · exact Or.inl h2
        · exact Or.inr (List.mem_cons_of_mem d h2)

/-- Sorting by score creates no new elements. -/
theorem mem_of_mem_sortByScore (a : DesignCandidate) (l : List DesignCandidate)
    (h : a ∈ sortByScore l) : a ∈ l := by
  induction l with
  | nil => simpa [sortByScore] using h
  | cons c rest ih =>
    unfold sortByScore at h
    rcases mem_insertByScore a c (sortByScore rest) h with h1 | h1
    · simp [h1]
    · exact List.mem_cons_of_mem c (ih h1)

/-- Any candidate a grid combination emits has passed the piston-speed
filter. -/
theorem candidate_for_piston_filter (target_power_kw : ℚ)
    (target_power_rpm : Option Int) (redline_rpm : Int)
    (profile cycle fuel : String) (bsfc_g_per_kwh : Option ℚ)
    (bmep_max_kpa piston_speed_max_mps : ℚ) (disp_cc cyl : Int)
    (c : DesignCandidate)
    (hmax : 0 < piston_speed_max_mps)
    (h : candidate_for target_power_kw target_power_rpm redline_rpm profile cycle
      fuel bsfc_g_per_kwh bmep_max_kpa piston_speed_max_mps disp_cc cyl =
      .ok (some c)) :
    ¬ candidate_piston_speed c.result > piston_speed_max_mps := by
  unfold candidate_for at h
  dsimp only at h
  split at h
  · exact Except.noConfusion h
  · split at h
    · exact Option.noConfusion (Except.ok.inj h)
    · split at h
      · exact Option.noConfusion (Except.ok.inj h)
      · split at h
        · exact Option.noConfusion (Except.ok.inj h)
        · split at h
          · exact Option.noConfusion (Except.ok.inj h)
          · split at h
            · exact Except.noConfusion h
            · split at h
              · exact Option.noConfusion (Except.ok.inj h)
              · split at h
                · exact Option.noConfusion (Except.ok.inj h)
                · rename_i hcond
                  have hc := (Option.some_inj.mp (Except.ok.inj h)).symm
                  rw [hc]
                  intro hgt
                  exact hcond ⟨hmax, hgt⟩

/-- Every candidate emitted by the design grid loop has passed the
piston-speed filter. -/
theorem design_loop_piston_filter (target_power_kw : ℚ)
    (target_power_rpm : Option Int) (redline_rpm : Int)
    (profile cycle fuel : String) (bsfc_g_per_kwh : Option ℚ)
    (bmep_max_kpa piston_speed_max_mps : ℚ)
    (hmax : 0 < piston_speed_max_mps) :
    ∀ (combos : List (Int × Int)) (out : List DesignCandidate),
      design_loop target_power_kw target_power_rpm redline_rpm profile cycle fuel
        bsfc_g_per_kwh bmep_max_kpa piston_speed_max_mps combos = .ok out →
      ∀ c ∈ out, ¬ candidate_piston_speed c.result > piston_speed_max_mps := by
  intro combos
  induction combos with
  | nil =>
    intro out h c hc
    unfold design_loop at h
    cases h
    simp at hc
  | cons dc rest ih =>
    intro out h c hc
    unfold design_loop at h
    cases h1 : candidate_for target_power_kw target_power_rpm redline_rpm profile
        cycle fuel bsfc_g_per_kwh bmep_max_kpa piston_speed_max_mps dc.1 dc.2 with
    | error m => rw [h1] at h; exact Except.noConfusion h
    | ok copt =>
      rw [h1] at h
      cases h2 : design_loop target_power_kw target_power_rpm redline_rpm profile
          cycle fuel bsfc_g_per_kwh bmep_max_kpa piston_speed_max_mps rest with
      | error m => rw [h2] at h; exact Except.noConfusion h
      | ok out' =>
        rw [h2] at h
        cases h
        rcases List.mem_append.mp hc with h3 | h3
        · cases copt with
          | none => simp at h3
          | some c0 =>
            have : c = c0 := by simpa using h3
            subst this
            exact candidate_for_piston_filter _ _ _ _ _ _ _ _ _ dc.1 dc.2 c hmax h1
        · exact ih out' h2 c h3

/-- C2: with a positive piston-speed ceiling, every combination whose
candidate piston-speed scalar exceeds the ceiling is rejected: no candidate
in the returned list exceeds it.  (In fact the design engines carry no
stroke, so the scalar is absent and the filter compares the 0.0 default.) -/
theorem c2_design_piston_speed_filter (target_power_kw : ℚ)
    (target_power_rpm : Option Int) (redline_rpm : Int)
    (profile cycle fuel : String) (bsfc_g_per_kwh : Option ℚ)
    (bmep_max_kpa piston_speed_max_mps : ℚ)
    (disp_min_cc disp_max_cc disp_step_cc : Int)
    (cylinders_list : Option (List Int)) (top_n : Int)
    (cands : List DesignCandidate)
    (hmax : 0 < piston_speed_max_mps)
    (h : design_candidates target_power_kw target_power_rpm redline_rpm profile
      cycle fuel bsfc_g_per_kwh bmep_max_kpa piston_speed_max_mps disp_min_cc
      disp_max_cc disp_step_cc cylinders_list top_n = .ok cands) :
    ∀ c ∈ cands, ¬ candidate_piston_speed c.result > piston_speed_max_mps := by
  intro c hc
  unfold design_candidates at h
  split at h
  · cases h; simp at hc
  · dsimp only at h
    cases h1 : design_loop target_power_kw target_power_rpm redline_rpm profile
        cycle fuel bsfc_g_per_kwh bmep_max_kpa piston_speed_max_mps
        ((pyRange disp_min_cc (disp_max_cc + 1) disp_step_cc).flatMap
          (fun d => (cylinders_list.getD [3, 4, 6, 8]).map (fun c => (d, c)))) with
    | error m => rw [h1] at h; exact Except.noConfusion h
    | ok out =>
      rw [h1] at h
      cases h
      exact design_loop_piston_filter _ _ _ _ _ _ _ _ _ hmax _ out h1 c
        (mem_of_mem_sortByScore c out (List.take_subset _ _ hc))

/-- C2 witness: a concrete search (positive ceiling 15, empty displacement
grid) returns a list in which no candidate exceeds the piston-speed
ceiling. -/
theorem c2_witness :
    (0 : ℚ) < 15 ∧
    design_candidates 10 none 7000 "balanced" "4-stroke" "petrol" none 2000 15 1000 0
      250 (some [4]) 5 = .ok [] ∧
    ∀ c ∈ ([] : List DesignCandidate), ¬ candidate_piston_speed c.result > 15 := by
  have h : design_candidates 10 none 7000 "balanced" "4-stroke" "petrol" none 2000 15
      1000 0 250 (some [4]) 5 = .ok [] := by
    norm_num [design_candidates, design_loop, pyRange, sortByScore]
  exact ⟨by norm_num, h,
    c2_design_piston_speed_filter 10 none 7000 "balanced" "4-stroke" "petrol" none
      2000 15 1000 0 250 (some [4]) 5 [] (by norm_num) h⟩

/-! ## Claim C4 -/

/-- Head-with-default of a nonempty list is a member. -/
theorem headD_mem_of_ne_nil (l : List ℚ) (d : ℚ) (h : l ≠ []) : l.headD d ∈ l := by
  cases l with
  | nil => exact absurd rfl h
  | cons a rest => simp

/-- Last-with-default of a nonempty list is a member. -/
theorem getLastD_mem_of_ne_nil (l : List ℚ) (d : ℚ) (h : l ≠ []) :
    l.getLastD d ∈ l := by
  induction l with
  | nil => exact absurd rfl h
  | cons a rest ih =>
    cases hr : rest with
    | nil => simp
    | cons b rest2 =>
      rw [List.getLastD_cons]
      rw [hr] at ih
      exact List.mem_cons_of_mem a (by simpa [List.getLastD_cons] using ih (by simp))

/-- The segment scan over pairs whose y components are all `cst` can only
produce `cst`. -/
theorem interpSegs_const (x cst : ℚ) :
    ∀ (l : List ((ℚ × ℚ) × (ℚ × ℚ))),
      (∀ p ∈ l, p.1.2 = cst ∧ p.2.2 = cst) →
      ∀ y, interpSegs x l = some y → y = cst := by
  intro l
  induction l with
  | nil => intro _ y h; simp [interpSegs] at h
  | cons p rest ih =>
    intro hall y h
    obtain ⟨⟨x0, y0⟩, ⟨x1, y1⟩⟩ := p
    have hp := hall _ (List.mem_cons_self _ _)
    simp only at hp
    unfold interpSegs at h
    split_ifs at h with h1 h2
    · rw [Option.some_inj] at h
      rw [← h]
      exact hp.1
    · rw [Option.some_inj] at h
      rw [← h, hp.1, hp.2]
      ring
    · exact ih (fun q hq => hall q (List.mem_cons_of_mem _ hq)) y h

/-- Interpolating a constant curve yields the constant. -/
theorem interpVal_const (xs ys : List ℚ) (cst x : ℚ)
    (hne : xs ≠ []) (hlen : xs.length = ys.length)
    (hconst : ∀ y ∈ ys, y = cst) : interpVal xs ys x = cst := by
  have hyne : ys ≠ [] := by
    intro h
    subst h
    simp at hlen
    exact hne hlen
  unfold interpVal
  split_ifs with h1 h2
  · exact hconst _ (headD_mem_of_ne_nil ys 0 hyne)
  · exact hconst _ (getLastD_mem_of_ne_nil ys 0 hyne)
  · cases hseg : interpSegs x ((xs.zip ys).zip (xs.tail.zip ys.tail)) with
    | none => exact hconst _ (getLastD_mem_of_ne_nil ys 0 hyne)
    | some y =>
      refine interpSegs_const x cst _ ?_ y hseg
      intro p hp
      obtain ⟨⟨a0, b0⟩, ⟨a1, b1⟩⟩ := p
      have hm := List.of_mem_zip hp
      constructor
      · exact hconst _ (List.of_mem_zip hm.1).2
      · exact hconst _ (List.mem_of_mem_tail (List.of_mem_zip hm.2).2)

/-- `interp_1d` on a constant curve returns the constant. -/
theorem interp_1d_const (xs ys : List ℚ) (cst x : ℚ)
    (hne : xs ≠ []) (hlen : xs.length = ys.length)
    (hconst : ∀ y ∈ ys, y = cst) : interp_1d xs ys x = .ok cst := by
  unfold interp_1d
  rw [if_neg]
  · rw [interpVal_const xs ys cst x hne hlen hconst]
  · push_neg
    exact ⟨hne, hlen⟩

/-- On a constant positive torque curve with a strictly smaller next gear,
the upshift search never finds a beneficial RPM. -/
theorem findShift_none_of_const (rpmsAll tq : List ℚ) (rpm_min rpm_max : Int)
    (g1 g2 cst : ℚ)
    (hne : rpmsAll ≠ []) (hlen : rpmsAll.length = tq.length)
    (hconst : ∀ y ∈ tq, y = cst) (hcst : 0 < cst) (hg : g2 < g1) :
    ∀ l, findShift rpmsAll tq rpm_min rpm_max g1 g2 (g2 / g1) l = .ok none := by
  have hi : ∀ z, interp_1d rpmsAll tq z = .ok cst :=
    fun z => interp_1d_const rpmsAll tq cst z hne hlen hconst
  have hlt : ¬ cst * g2 ≥ cst * g1 :=
    not_le.mpr ((mul_lt_mul_left hcst).mpr hg)
  intro l
  induction l with
  | nil => rfl
  | cons r rest ih =>
    rw [findShift]
    dsimp only
    split_ifs with h1 h2
    · exact ih
    · exact ih
    · simp only [hi]
      rw [if_neg hlt]
      exact ih

/-- A speed conversion with valid inputs does not raise. -/
theorem speed_kph_ok (rpm g f t : ℚ) (h0 : 0 ≤ rpm) (hg : 0 < g) (hf : 0 < f)
    (ht : 0 < t) : ∃ v, speed_kph_from_rpm rpm g f t = .ok v := by
  unfold speed_kph_from_rpm speed_mps_from_rpm
  rw [if_neg (not_lt.mpr h0), if_neg (by push_neg; exact ⟨hg, hf, ht⟩)]
  exact ⟨_, rfl⟩

/-- When the search finds no beneficial RPM, the row defaults the shift point
to the window maximum. -/
theorem upshiftRow_default (rpms tq : List ℚ) (rpm_min rpm_max : Int)
    (final_drive : ℚ) (tire : Option ℚ) (i : Nat) (g1 g2 : ℚ)
    (hfind : findShift rpms tq rpm_min rpm_max g1 g2 (g2 / g1) rpms = .ok none)
    (htire : ∀ rt, tire = some rt → 0 < rt)
    (hg1 : 0 < g1) (hf : 0 < final_drive) (hrm : (0 : ℚ) ≤ ((rpm_max : Int) : ℚ)) :
    ∃ row, upshiftRow rpms tq rpm_min rpm_max final_drive tire i g1 g2 = .ok row ∧
      row.lookup "upshift_rpm" = some ((rpm_max : Int) : ℚ) := by
  unfold upshiftRow
  simp only [hfind]
  cases tire with
  | none => exact ⟨_, rfl, by simp [List.lookup]⟩
  | some rt =>
    obtain ⟨v, hv⟩ := speed_kph_ok ((rpm_max : Int) : ℚ) g1 final_drive rt hrm hg1 hf
      (htire rt rfl)
    simp only [hv]
    exact ⟨_, rfl, by simp [List.lookup]⟩

/-- Row production over all adjacent gear pairs when every comparison fails:
one row per boundary, all defaulted to the window maximum. -/
theorem upshiftRows_default (rpms tq : List ℚ) (rpm_min rpm_max : Int)
    (final_drive : ℚ) (tire : Option ℚ) (cst : ℚ)
    (hne : rpms ≠ []) (hlen : rpms.length = tq.length)
    (hconst : ∀ y ∈ tq, y = cst) (hcst : 0 < cst)
    (htire : ∀ rt, tire = some rt → 0 < rt) (hf : 0 < final_drive)
    (hrm : (0 : ℚ) ≤ ((rpm_max : Int) : ℚ)) :
    ∀ (pairs : List (ℚ × ℚ)) (i : Nat), (∀ p ∈ pairs, p.2 < p.1 ∧ 0 < p.1) →
      ∃ rows, upshiftRows rpms tq rpm_min rpm_max final_drive tire i pairs =
          .ok rows ∧
        rows.length = pairs.length ∧
        ∀ row ∈ rows, row.lookup "upshift_rpm" = some ((rpm_max : Int) : ℚ) := by
  intro pairs
  induction pairs with
  | nil => exact fun i _ => ⟨[], rfl, rfl, by simp⟩
  | cons p rest ih =>
    intro i hall
    obtain ⟨g1, g2⟩ := p
    have hp := hall _ (List.mem_cons_self _ _)
    simp only at hp
    have hfind := findShift_none_of_const rpms tq rpm_min rpm_max g1 g2 cst hne hlen
      hconst hcst hp.1 rpms
    obtain ⟨row, hrow, hlook⟩ := upshiftRow_default rpms tq rpm_min rpm_max
      final_drive tire i g1 g2 hfind htire hp.2 hf hrm
    obtain ⟨rows, hrows, hlen2, hall2⟩ :=
      ih (i + 1) (fun q hq => hall q (List.mem_cons_of_mem _ hq))
    refine ⟨row :: rows, ?_, by simp [hlen2], ?_⟩
    · unfold upshiftRows
      simp only [hrow, hrows]
    · intro r hr
      rcases List.mem_cons.mp hr with h | h
      · rw [h]; exact hlook
      · exact hall2 r h

/-- The fold underlying `pyMax` only grows its accumulator. -/
theorem foldl_max_init (a : ℚ) (l : List ℚ) : a ≤ l.foldl max a := by
  induction l generalizing a with
  | nil => exact le_refl a
  | cons b rest ih => exact le_trans (le_max_left a b) (ih (max a b))

/-- `pyMax` of a nonempty list of nonnegatives is nonnegative. -/
theorem pyMax_nonneg (l : List ℚ) (hne : l ≠ []) (h : ∀ r ∈ l, 0 ≤ r) :
    0 ≤ pyMax l := by
  cases l with
  | nil => exact absurd rfl hne
  | cons a rest =>
    exact le_trans (h a (List.mem_cons_self _ _)) (foldl_max_init a rest)

/-- Adjacent pairs of a strictly decreasing list are strictly decreasing. -/
theorem chain_zip_tail (gs : List ℚ) (h : gs.Chain' (fun a b => b < a)) :
    ∀ p ∈ gs.zip gs.tail, p.2 < p.1 := by
  induction gs with
  | nil => simp
  | cons g rest ih =>
    cases rest with
    | nil => simp
    | cons b r2 =>
      intro p hp
      rw [List.chain'_cons] at h
      rcases List.mem_cons.mp hp with h1 | h1
      · rw [h1]; exact h.1
      · exact ih h.2 p h1

/-- C4 (amended): on a constant positive torque curve with strictly
decreasing positive gear ratios, `recommend_upshifts` finds no beneficial
shift RPM and recommends, for every adjacent gear boundary, an upshift at
the effective window maximum `min(redline_rpm, int(max(rpm grid)))` — which
is the RPM-grid maximum whenever the redline is at or above it. -/
theorem c4_flat_torque_defaults_to_window_max (result : Result)
    (engine : EngineSpec) (drivetrain : DrivetrainSpec) (gs : List ℚ) (f : ℚ)
    (rpms tqs : List ℚ) (cst : ℚ)
    (hg : drivetrain.gears = some gs) (hf : drivetrain.final_drive = some f)
    (hr : result.curves.lookup "rpm" = some rpms)
    (ht : result.curves.lookup "torque_nm" = some tqs)
    (hne : rpms ≠ []) (hlen : rpms.length = tqs.length)
    (hconst : ∀ y ∈ tqs, y = cst) (hcst : 0 < cst)
    (hchain : gs.Chain' (fun a b => b < a)) (hpos : ∀ g ∈ gs, 0 < g)
    (hfpos : 0 < f) (htire : ∀ rt, drivetrain.tire_radius_m = some rt → 0 < rt)
    (hredl : 0 < engine.redline_rpm) (hrpmpos : ∀ r ∈ rpms, 0 ≤ r) :
    ∃ rows, recommend_upshifts result engine drivetrain = .ok rows ∧
      rows.length = gs.length - 1 ∧
      ∀ row ∈ rows, row.lookup "upshift_rpm" =
        some (((min engine.redline_rpm (pyInt (pyMax rpms)) : Int) : Int) : ℚ) := by
  have hrm : (0 : ℚ) ≤ ((min engine.redline_rpm (pyInt (pyMax rpms)) : Int) : ℚ) := by
    have h1 : (0 : Int) ≤ pyInt (pyMax rpms) := by
      unfold pyInt
      rw [if_pos (pyMax_nonneg rpms hne hrpmpos)]
      exact Int.le_floor.mpr (by exact_mod_cast pyMax_nonneg rpms hne hrpmpos)
    have : (0 : Int) ≤ min engine.redline_rpm (pyInt (pyMax rpms)) :=
      le_min (le_of_lt hredl) h1
    exact_mod_cast this
  have hpairs : ∀ p ∈ gs.zip gs.tail, p.2 < p.1 ∧ 0 < p.1 := by
    intro p hp
    refine ⟨chain_zip_tail gs hchain p hp, ?_⟩
    exact hpos p.1 (List.of_mem_zip hp).1
  obtain ⟨rows, hrows, hlen2, hall⟩ :=
    upshiftRows_default rpms tqs (max engine.idle_rpm (pyInt (pyMin rpms)))
      (min engine.redline_rpm (pyInt (pyMax rpms))) f drivetrain.tire_radius_m cst
      hne hlen hconst hcst htire hfpos hrm (gs.zip gs.tail) 0 hpairs
  refine ⟨rows, ?_, ?_, hall⟩
  · unfold recommend_upshifts
    simp only [hg, hf, hr, ht]
    rw [if_neg hne]
    exact hrows
  · rw [hlen2, List.length_zip, List.length_tail]
    omega

/-- C4 counterexample: (a) with a flat positive torque curve, a grid topping
out at 7000 RPM but a redline of 5000, every boundary's recommendation is
5000 — the window maximum — not the RPM-grid maximum 7000; (b) with a flat
zero torque curve the search does find an RPM (wheel torques tie at 0), so
the recommendation is 3000, not the grid maximum. -/
theorem c4_counterexample :
    (∃ rows, recommend_upshifts
      { curves := [("rpm", [1000, 3000, 5000, 7000]),
                   ("torque_nm", [200, 200, 200, 200])] }
      { cylinders := 4, displacement_m3 := some (1/500), idle_rpm := 800,
        redline_rpm := 5000 }
      { gears := some [3, 2], final_drive := some 4 } = .ok rows ∧
      (∀ row ∈ rows, row.lookup "upshift_rpm" = some 5000) ∧ rows ≠ []) ∧
    pyMax [1000, 3000, 5000, 7000] = 7000 ∧ (5000 : ℚ) ≠ 7000 ∧
    (∃ rows, recommend_upshifts
      { curves := [("rpm", [1000, 3000, 5000, 7000]), ("torque_nm", [0, 0, 0, 0])] }
      { cylinders := 4, displacement_m3 := some (1/500), idle_rpm := 800,
        redline_rpm := 7000 }
      { gears := some [3, 2], final_drive := some 4 } = .ok rows ∧
      ∀ row ∈ rows, row.lookup "upshift_rpm" = some 3000) := by
  have hmax : pyInt (pyMax [(1000 : ℚ), 3000, 5000, 7000]) = 7000 := by
    norm_num [pyInt, pyMax, max_def]
  have hmin : pyInt (pyMin [(1000 : ℚ), 3000, 5000, 7000]) = 1000 := by
    norm_num [pyInt, pyMin, min_def]
  refine ⟨?_, by norm_num [pyMax, max_def], by norm_num, ?_⟩
  · obtain ⟨rows, hrows, hlen, hall⟩ := upshiftRows_default
      [1000, 3000, 5000, 7000] [200, 200, 200, 200] 1000 5000 4 none 200
      (by simp) (by simp) (by intro y hy; fin_cases hy <;> rfl) (by norm_num)
      (by intro rt h; cases h) (by norm_num) (by norm_num)
      [(3, 2)] 0 (by intro p hp; fin_cases hp <;> constructor <;> norm_num)
    refine ⟨rows, ?_, ?_, ?_⟩
    · unfold recommend_upshifts
      simp [List.lookup, hmax, hmin]
      convert hrows using 2
    · intro row hrow
      have := hall row hrow
      simpa using this
    · intro h
      rw [h] at hlen
      simp at hlen
  · have hfind : findShift [1000, 3000, 5000, 7000] [0, 0, 0, 0] 1000 7000 3 2 (2/3)
        [1000, 3000, 5000, 7000] = .ok (some (3000, 2000)) := by
      simp only [findShift, interp_1d, interpVal, interpSegs]
      norm_num
      simp
    unfold recommend_upshifts
    simp [List.lookup, hmax, hmin]
    unfold upshiftRows upshiftRow
    norm_num [hfind]
    exact ⟨_, rfl, by simp [List.lookup]⟩

/-- C4 witness: the flat-200 Nm test scenario with redline equal to the grid
maximum recommends shifting at 7000 for the single boundary. -/
theorem c4_witness :
    ∃ rows, recommend_upshifts
      { curves := [("rpm", [1000, 3000, 5000, 7000]),
                   ("torque_nm", [200, 200, 200, 200])] }
      { cylinders := 4, displacement_m3 := some (1/500), idle_rpm := 800,
        redline_rpm := 7000 }
      { gears := some [3, 2], final_drive := some 4, tire_radius_m := some (3/10) } =
        .ok rows ∧
      rows.length = ([(3 : ℚ), 2]).length - 1 ∧
      ∀ row ∈ rows, row.lookup "upshift_rpm" =
        some (((min 7000 (pyInt (pyMax [1000, 3000, 5000, 7000])) : Int) : Int) : ℚ) :=
  c4_flat_torque_defaults_to_window_max
    { curves := [("rpm", [1000, 3000, 5000, 7000]),
                 ("torque_nm", [200, 200, 200, 200])] }
    { cylinders := 4, displacement_m3 := some (1/500), idle_rpm := 800,
      redline_rpm := 7000 }
    { gears := some [3, 2], final_drive := some 4, tire_radius_m := some (3/10) }
    [3, 2] 4 [1000, 3000, 5000, 7000] [200, 200, 200, 200] 200
    rfl rfl (by simp [List.lookup]) (by simp [List.lookup]) (by simp) rfl
    (by intro y hy; fin_cases hy <;> rfl) (by norm_num)
    (by norm_num [List.chain'_cons]) (by intro g hg; fin_cases hg <;> norm_num)
    (by norm_num) (by intro rt h; rw [Option.some_inj] at h; rw [← h]; norm_num)
    (by norm_num) (by intro r hr; fin_cases hr <;> norm_num)

/-! ## Claim C3 -/

/-- A valid speed computation succeeds with a nonnegative value. -/
theorem speed_mps_ok (rpm g f t : ℚ) (h0 : 0 ≤ rpm) (hg : 0 < g) (hf : 0 < f)
    (ht : 0 < t) :
    speed_mps_from_rpm rpm g f t = .ok ((rpm / (g * f)) * (2 * mathPi * t) / 60) ∧
      0 ≤ (rpm / (g * f)) * (2 * mathPi * t) / 60 := by
  constructor
  · unfold speed_mps_from_rpm
    rw [if_neg (not_lt.mpr h0), if_neg (by push_neg; exact ⟨hg, hf, ht⟩)]
  · have := mathPi_pos
    positivity

/-- A valid road-load computation succeeds. -/
theorem road_load_ok (v mass cd fa crr rho : ℚ) (hv : 0 ≤ v) (hm : 0 < mass)
    (hcd : 0 < cd) (hfa : 0 < fa) (hcrr : 0 < crr) (hrho : 0 < rho) :
    road_load_power_w v mass cd fa crr rho =
      .ok (0.5 * rho * (cd * fa) * v ^ 3 + crr * mass * gravityG * v) := by
  unfold road_load_power_w
  rw [if_neg (not_lt.mpr hv), if_neg (by push_neg; exact ⟨hm, hcd, hfa⟩),
    if_neg (by push_neg; exact ⟨hcrr, hrho⟩)]

/-- One search step: under a pointwise power increase the best speed after
the step never drops. -/
theorem ts_step_mono (mass cd fa crr rho eff f tire rpm_cap : ℚ) (gi : Int)
    (gr : ℚ) (stlo sthi : TsState) (rpm plo phi : ℚ)
    (h0 : 0 ≤ rpm) (hgr : 0 < gr) (hf : 0 < f) (ht : 0 < tire)
    (hm : 0 < mass) (hcd : 0 < cd) (hfa : 0 < fa) (hcrr : 0 < crr) (hrho : 0 < rho)
    (heff : 0 ≤ eff) (hp : plo ≤ phi) (hst : stlo.best_kph ≤ sthi.best_kph) :
    ∃ stlo' sthi',
      ts_step mass cd fa crr rho eff f tire rpm_cap gi gr stlo (rpm, plo) = .ok stlo' ∧
      ts_step mass cd fa crr rho eff f tire rpm_cap gi gr sthi (rpm, phi) = .ok sthi' ∧
      stlo'.best_kph ≤ sthi'.best_kph := by
  unfold ts_step
  dsimp only
  by_cases hcap : rpm > rpm_cap
  · rw [if_pos hcap, if_pos hcap]
    exact ⟨stlo, sthi, rfl, rfl, hst⟩
  · rw [if_neg hcap, if_neg hcap]
    obtain ⟨hsp, hv⟩ := speed_mps_ok rpm gr f tire h0 hgr hf ht
    simp only [hsp]
    rw [road_load_ok _ mass cd fa crr rho hv hm hcd hfa hcrr hrho]
    dsimp only
    set v := (rpm / (gr * f)) * (2 * mathPi * tire) / 60 with hvdef
    set preq := 0.5 * rho * (cd * fa) * v ^ 3 + crr * mass * gravityG * v with hpdef
    have hpe : plo * 1000 * eff ≤ phi * 1000 * eff := by
      have : plo * 1000 ≤ phi * 1000 := by linarith
      exact mul_le_mul_of_nonneg_right this heff
    by_cases hflo : plo * 1000 * eff ≥ preq
    · have hfhi : phi * 1000 * eff ≥ preq := le_trans hflo hpe
      rw [if_pos hflo, if_pos hfhi]
      by_cases hup : v * 3.6 > stlo.best_kph
      · rw [if_pos hup]
        by_cases hup2 : v * 3.6 > sthi.best_kph
        · rw [if_pos hup2]
          exact ⟨_, _, rfl, rfl, le_refl _⟩
        · rw [if_neg hup2]
          exact ⟨_, _, rfl, rfl, not_lt.mp hup2⟩
      · rw [if_neg hup]
        by_cases hup2 : v * 3.6 > sthi.best_kph
        · rw [if_pos hup2]
          exact ⟨_, _, rfl, rfl, le_of_lt (lt_of_le_of_lt hst hup2)⟩
        · rw [if_neg hup2]
          exact ⟨_, _, rfl, rfl, hst⟩
    · rw [if_neg hflo]
      by_cases hfhi : phi * 1000 * eff ≥ preq
      · rw [if_pos hfhi]
        by_cases hup2 : v * 3.6 > sthi.best_kph
        · rw [if_pos hup2]
          exact ⟨_, _, rfl, rfl, le_of_lt (lt_of_le_of_lt hst hup2)⟩
        · rw [if_neg hup2]
          exact ⟨_, _, rfl, rfl, hst⟩
      · rw [if_neg hfhi]
        exact ⟨_, _, rfl, rfl, hst⟩

/-- One gear's search pass: under a pointwise power increase the best speed
never drops, and neither run raises. -/
theorem ts_gear_mono (mass cd fa crr rho eff f tire rpm_cap : ℚ) (gi : Int)
    (gr : ℚ)
    (hgr : 0 < gr) (hf : 0 < f) (ht : 0 < tire)
    (hm : 0 < mass) (hcd : 0 < cd) (hfa : 0 < fa) (hcrr : 0 < crr) (hrho : 0 < rho)
    (heff : 0 ≤ eff) :
    ∀ (rpms plo phi : List ℚ) (stlo sthi : TsState),
      (∀ r ∈ rpms, 0 ≤ r) → List.Forall₂ (fun a b => a ≤ b) plo phi →
      stlo.best_kph ≤ sthi.best_kph →
      ∃ stlo' sthi',
        ts_gear mass cd fa crr rho eff f tire rpm_cap gi gr stlo (rpms.zip plo) =
          .ok stlo' ∧
        ts_gear mass cd fa crr rho eff f tire rpm_cap gi gr sthi (rpms.zip phi) =
          .ok sthi' ∧
        stlo'.best_kph ≤ sthi'.best_kph := by
  intro rpms
  induction rpms with
  | nil => exact fun plo phi stlo sthi _ _ hst => ⟨stlo, sthi, rfl, rfl, hst⟩
  | cons r rest ih =>
    intro plo phi stlo sthi hrpm hp hst
    cases hp with
    | nil => exact ⟨stlo, sthi, rfl, rfl, hst⟩
    | cons hab hrest =>
      rename_i a b plo' phi'
      obtain ⟨stlo1, sthi1, hlo1, hhi1, hle1⟩ :=
        ts_step_mono mass cd fa crr rho eff f tire rpm_cap gi gr stlo sthi r a b
          (hrpm r (List.mem_cons_self _ _)) hgr hf ht hm hcd hfa hcrr hrho heff hab hst
      obtain ⟨stlo2, sthi2, hlo2, hhi2, hle2⟩ :=
        ih plo' phi' stlo1 sthi1 (fun q hq => hrpm q (List.mem_cons_of_mem _ hq))
          hrest hle1
      refine ⟨stlo2, sthi2, ?_, ?_, hle2⟩
      · rw [List.zip_cons_cons, ts_gear, hlo1]
        exact hlo2
      · rw [List.zip_cons_cons, ts_gear, hhi1]
        exact hhi2

/-- The whole gears × samples search: under a pointwise power increase the
final best speed never drops, and neither run raises. -/
theorem ts_gears_mono (mass cd fa crr rho eff f tire rpm_cap : ℚ)
    (hf : 0 < f) (ht : 0 < tire)
    (hm : 0 < mass) (hcd : 0 < cd) (hfa : 0 < fa) (hcrr : 0 < crr) (hrho : 0 < rho)
    (heff : 0 ≤ eff) (rpms plo phi : List ℚ)
    (hrpm : ∀ r ∈ rpms, 0 ≤ r) (hp : List.Forall₂ (fun a b => a ≤ b) plo phi) :
    ∀ (gears : List ℚ) (gi : Int) (stlo sthi : TsState),
      (∀ g ∈ gears, 0 < g) → stlo.best_kph ≤ sthi.best_kph →
      ∃ stlo' sthi',
        ts_gears mass cd fa crr rho eff f tire rpm_cap (rpms.zip plo) gi gears stlo =
          .ok stlo' ∧
        ts_gears mass cd fa crr rho eff f tire rpm_cap (rpms.zip phi) gi gears sthi =
          .ok sthi' ∧
        stlo'.best_kph ≤ sthi'.best_kph := by
  intro gears
  induction gears with
  | nil => exact fun gi stlo sthi _ hst => ⟨stlo, sthi, rfl, rfl, hst⟩
  | cons g rest ih =>
    intro gi stlo sthi hgs hst
    obtain ⟨stlo1, sthi1, hlo1, hhi1, hle1⟩ :=
      ts_gear_mono mass cd fa crr rho eff f tire rpm_cap gi g
        (hgs g (List.mem_cons_self _ _)) hf ht hm hcd hfa hcrr hrho heff
        rpms plo phi stlo sthi hrpm hp hst
    obtain ⟨stlo2, sthi2, hlo2, hhi2, hle2⟩ :=
      ih (gi + 1) stlo1 sthi1 (fun q hq => hgs q (List.mem_cons_of_mem _ hq)) hle1
    refine ⟨stlo2, sthi2, ?_, ?_, hle2⟩
    · rw [ts_gears]
      simp only [hlo1]
      exact hlo2
    · rw [ts_gears]
      simp only [hhi1]
      exact hhi2

/-- C3 (amended): holding engine, vehicle and drivetrain fixed (with valid
positive parameters and a nonnegative drivetrain efficiency), a Result whose
power curve is pointwise higher over the same RPM curve yields an estimated
top speed at least as high — not necessarily strictly higher, since a larger
power only enlarges the feasible set of (gear, RPM) pairs. -/
theorem c3_higher_power_no_lower_top_speed (r_lo r_hi : Result)
    (engine : EngineSpec) (vehicle : VehicleSpec) (drivetrain : DrivetrainSpec)
    (gs : List ℚ) (f tire mass cd fa : ℚ) (rpms plo phi : List ℚ)
    (hg : drivetrain.gears = some gs) (hf : drivetrain.final_drive = some f)
    (htr : drivetrain.tire_radius_m = some tire)
    (hm : vehicle.mass_kg = some mass) (hcd : vehicle.cd = some cd)
    (hfa : vehicle.frontal_area_m2 = some fa)
    (hrlo : r_lo.curves.lookup "rpm" = some rpms)
    (hplo : r_lo.curves.lookup "power_kw" = some plo)
    (hrhi : r_hi.curves.lookup "rpm" = some rpms)
    (hphi : r_hi.curves.lookup "power_kw" = some phi)
    (hpower : List.Forall₂ (fun a b => a < b) plo phi)
    (hrpm : ∀ r ∈ rpms, 0 ≤ r) (hgs : ∀ g ∈ gs, 0 < g)
    (hfpos : 0 < f) (htpos : 0 < tire) (hmpos : 0 < mass) (hcdpos : 0 < cd)
    (hfapos : 0 < fa)
    (hcrr : 0 < vehicle.crr.getD 0.012)
    (hrho : 0 < vehicle.air_density_kg_m3.getD 1.225)
    (heff : 0 ≤ drivetrain.drivetrain_efficiency.getD 0.90) :
    ∃ dlo dhi, estimate_top_speed r_lo engine vehicle drivetrain = .ok dlo ∧
      estimate_top_speed r_hi engine vehicle drivetrain = .ok dhi ∧
      (dlo.lookup "top_speed_kph").getD 0 ≤ (dhi.lookup "top_speed_kph").getD 0 := by
  obtain ⟨stlo, sthi, hlo, hhi, hle⟩ :=
    ts_gears_mono mass cd fa (vehicle.crr.getD 0.012)
      (vehicle.air_density_kg_m3.getD 1.225)
      (drivetrain.drivetrain_efficiency.getD 0.90) f tire
      (min (engine.redline_rpm : ℚ)
        (if rpms = [] then (engine.redline_rpm : ℚ) else pyMax rpms))
      hfpos htpos hmpos hcdpos hfapos hcrr hrho heff rpms plo phi hrpm
      (List.Forall₂.imp (fun a b hab => le_of_lt hab) hpower)
      gs 1 ⟨0, 0, 0⟩ ⟨0, 0, 0⟩ hgs (le_refl 0)
  refine ⟨[("top_speed_kph", stlo.best_kph), ("top_speed_gear", (stlo.best_gear : ℚ)),
      ("top_speed_rpm", stlo.best_rpm),
      ("drivetrain_eff", drivetrain.drivetrain_efficiency.getD 0.90),
      ("rho", vehicle.air_density_kg_m3.getD 1.225),
      ("crr", vehicle.crr.getD 0.012)],
    [("top_speed_kph", sthi.best_kph), ("top_speed_gear", (sthi.best_gear : ℚ)),
      ("top_speed_rpm", sthi.best_rpm),
      ("drivetrain_eff", drivetrain.drivetrain_efficiency.getD 0.90),
      ("rho", vehicle.air_density_kg_m3.getD 1.225),
      ("crr", vehicle.crr.getD 0.012)], ?_, ?_, ?_⟩
  · unfold estimate_top_speed
    simp only [hg, hf, htr, hm, hcd, hfa, hrlo, hplo, hlo]
  · unfold estimate_top_speed
    simp only [hg, hf, htr, hm, hcd, hfa, hrhi, hphi, hhi]
  · simpa [List.lookup] using hle

/-- C3 witness: the documented 50 kW vs 100 kW flat-curve scenario. -/
theorem c3_witness :
    ∃ dlo dhi, estimate_top_speed
        { curves := [("rpm", [1000, 3000, 5000, 7000]), ("power_kw", [50, 50, 50, 50])] }
        { cylinders := 4, displacement_m3 := some (1/500), idle_rpm := 800,
          redline_rpm := 7000 }
        { mass_kg := some 1500, cd := some (3/10), frontal_area_m2 := some (11/5) }
        { gears := some [1], final_drive := some 3, tire_radius_m := some (3/10),
          drivetrain_efficiency := some (9/10) } = .ok dlo ∧
      estimate_top_speed
        { curves := [("rpm", [1000, 3000, 5000, 7000]), ("power_kw", [100, 100, 100, 100])] }
        { cylinders := 4, displacement_m3 := some (1/500), idle_rpm := 800,
          redline_rpm := 7000 }
        { mass_kg := some 1500, cd := some (3/10), frontal_area_m2 := some (11/5) }
        { gears := some [1], final_drive := some 3, tire_radius_m := some (3/10),
          drivetrain_efficiency := some (9/10) } = .ok dhi ∧
      (dlo.lookup "top_speed_kph").getD 0 ≤ (dhi.lookup "top_speed_kph").getD 0 :=
  c3_higher_power_no_lower_top_speed
    { curves := [("rpm", [1000, 3000, 5000, 7000]), ("power_kw", [50, 50, 50, 50])] }
    { curves := [("rpm", [1000, 3000, 5000, 7000]), ("power_kw", [100, 100, 100, 100])] }
    { cylinders := 4, displacement_m3 := some (1/500), idle_rpm := 800,
      redline_rpm := 7000 }
    { mass_kg := some 1500, cd := some (3/10), frontal_area_m2 := some (11/5) }
    { gears := some [1], final_drive := some 3, tire_radius_m := some (3/10),
      drivetrain_efficiency := some (9/10) }
    [1] 3 (3/10) 1500 (3/10) (11/5) [1000, 3000, 5000, 7000]
    [50, 50, 50, 50] [100, 100, 100, 100]
    rfl rfl rfl rfl rfl rfl
    (by simp [List.lookup]) (by simp [List.lookup])
    (by simp [List.lookup]) (by simp [List.lookup])
    (by norm_num [List.forall₂_cons])
    (by intro r hr; fin_cases hr <;> norm_num)
    (by intro g hg; fin_cases hg <;> norm_num)
    (by norm_num) (by norm_num) (by norm_num) (by norm_num) (by norm_num)
    (by norm_num) (by norm_num) (by norm_num)

/-- C3 counterexample: with a pointwise strictly higher power curve (2 kW vs
1 kW at the single sample) and all parameters fixed, both runs make every
(gear, RPM) pair feasible, so the estimated top speeds are equal — not
strictly higher for the higher-power Result. -/
theorem c3_counterexample :
    List.Forall₂ (fun a b => a < b) [(1 : ℚ)] [2] ∧
    ∃ dlo dhi, estimate_top_speed
        { curves := [("rpm", [60]), ("power_kw", [1])] }
        { cylinders := 4, displacement_m3 := some (1/500), idle_rpm := 800,
          redline_rpm := 7000 }
        { mass_kg := some 1, cd := some 1, frontal_area_m2 := some 1 }
        { gears := some [1], final_drive := some 1, tire_radius_m := some (3/10) } =
        .ok dlo ∧
      estimate_top_speed
        { curves := [("rpm", [60]), ("power_kw", [2])] }
        { cylinders := 4, displacement_m3 := some (1/500), idle_rpm := 800,
          redline_rpm := 7000 }
        { mass_kg := some 1, cd := some 1, frontal_area_m2 := some 1 }
        { gears := some [1], final_drive := some 1, tire_radius_m := some (3/10) } =
        .ok dhi ∧
      (dlo.lookup "top_speed_kph").getD 0 = (dhi.lookup "top_speed_kph").getD 0 := by
  refine ⟨by norm_num [List.forall₂_cons], ?_⟩
  unfold estimate_top_speed
  simp [List.lookup, pyMax, min_def, max_def]
  norm_num [ts_gears, ts_gear, ts_step, speed_mps_from_rpm, road_load_power_w,
    mathPi, gravityG]
